import Mathlib

/-!
# A verification development for `triangle.cpp`

`triangle.cpp` wraps the OpenGL state machine in four small objects
(`Uniform`, `VertexArray`, `Shader`, `Framebuffer`).  Every operation of these
objects is a straight-line or loop program over OpenGL entry points, so the
embedding below represents an operation by the list of calls it issues, in
program order, together with the new value of the object.

* Answers of the driver (names written by `glGen*`, the value of
  `glCheckFramebufferStatus`, compile status, ...) are arguments of the
  embedded operation, so every theorem holds for all possible answers.
* Signed 32-bit quantities (`GLint`, `GLsizei`, `int`) are `Int`, unsigned ones
  (`GLuint`, `GLenum`, `unsigned int`) are `Nat`; each conversion or unsigned
  addition of the source is an explicit wrap.  64-bit quantities
  (`size_t`, `GLsizeiptr`, `GLintptr`) are sums of sizes of vectors that live
  in memory and are kept unbounded.
* A `GLfloat` is only stored and forwarded, never computed with; it is
  represented by its bit pattern.
-/

namespace Triangle

/-! ## Machine integers -/

/-- Conversion to a signed 32-bit type (`GLint`, `GLsizei`, `int`):
two's-complement wrap into `[-2^31, 2^31)`. -/
def toGLint (z : Int) : Int := (z + 2147483648) % 4294967296 - 2147483648

/-- Conversion to an unsigned 32-bit type (`GLuint`, `unsigned int`). -/
def toGLuint (z : Int) : Nat := (z % 4294967296).toNat

/-- Conversion of an `int` to `size_t` (64-bit), as the usual arithmetic
conversions do when an `int` is compared with a `size_t`. -/
def toSizeT (z : Int) : Nat := (z % 18446744073709551616).toNat

/-- Size of a `GLfloat` in bytes: `sizeof(GLfloat)`. -/
def sizeofGLfloat : Nat := 4

/-! ## OpenGL constants (values of the OpenGL registry, as in `glew.h`) -/

def GL_FALSE : Nat := 0
def GL_TRUE : Nat := 1
def GL_NONE : Nat := 0
def GL_TRIANGLES : Nat := 0x0004
def GL_LESS : Nat := 0x0201
def GL_BACK : Nat := 0x0405
def GL_DEPTH_TEST : Nat := 0x0B71
def GL_TEXTURE_2D : Nat := 0x0DE1
def GL_FLOAT : Nat := 0x1406
def GL_LINEAR : Nat := 0x2601
def GL_TEXTURE_MAG_FILTER : Nat := 0x2800
def GL_TEXTURE_MIN_FILTER : Nat := 0x2801
def GL_TEXTURE_WRAP_S : Nat := 0x2802
def GL_TEXTURE_WRAP_T : Nat := 0x2803
def GL_REPEAT : Nat := 0x2901
def GL_DEPTH_STENCIL_ATTACHMENT : Nat := 0x821A
def GL_TEXTURE0 : Nat := 0x84C0
def GL_ARRAY_BUFFER : Nat := 0x8892
def GL_STATIC_DRAW : Nat := 0x88E4
def GL_FRAGMENT_SHADER : Nat := 0x8B30
def GL_VERTEX_SHADER : Nat := 0x8B31
def GL_COMPILE_STATUS : Nat := 0x8B81
def GL_DEPTH_COMPONENT32F : Nat := 0x8CAC
def GL_FRAMEBUFFER_COMPLETE : Nat := 0x8CD5
def GL_MAX_COLOR_ATTACHMENTS : Nat := 0x8CDF
def GL_COLOR_ATTACHMENT0 : Nat := 0x8CE0
def GL_DEPTH_ATTACHMENT : Nat := 0x8D00
def GL_STENCIL_ATTACHMENT : Nat := 0x8D20
def GL_FRAMEBUFFER : Nat := 0x8D40
def GL_RENDERBUFFER : Nat := 0x8D41
def GL_DEPTH_BUFFER_BIT : Nat := 0x00000100
def GL_COLOR_BUFFER_BIT : Nat := 0x00004000
def EXIT_FAILURE : Int := 1

/-! ## Payload types -/

/-- A `GLfloat`, represented by its IEEE-754 binary32 bit pattern. -/
structure GLfloat where
  bits : Nat
  deriving DecidableEq, Repr

/-- The type `glm::vec3`. -/
structure Vec3 where
  x : GLfloat
  y : GLfloat
  z : GLfloat
  deriving DecidableEq, Repr

/-- The type `glm::vec4`, a column of a `glm::mat4`. -/
structure Vec4 where
  x : GLfloat
  y : GLfloat
  z : GLfloat
  w : GLfloat
  deriving DecidableEq, Repr

/-- The type `glm::mat4`: four columns. -/
structure Mat4 where
  c0 : Vec4
  c1 : Vec4
  c2 : Vec4
  c3 : Vec4
  deriving DecidableEq, Repr

/-! ## Calls -/

/-- One call of an OpenGL entry point (or of `printf`), with its arguments.
Out-parameters (`glGen*`, `glGetIntegerv`, `glGetShaderiv`) carry the value
the driver wrote; pointer arguments carry the data they point to. -/
inductive Call where
  | glUniform1i (location : Int) (v0 : Int)
  | glUniform1f (location : Int) (v0 : GLfloat)
  | glUniform3f (location : Int) (v0 v1 v2 : GLfloat)
  | glUniformMatrix4fv (location : Int) (count : Int) (transpose : Nat) (value : Mat4)
  | glGenVertexArrays (n : Int) (name : Nat)
  | glBindVertexArray (array : Nat)
  | glGenBuffers (n : Int) (name : Nat)
  | glBindBuffer (target : Nat) (buffer : Nat)
  | glBufferData (target : Nat) (size : Int) (data : Option (List GLfloat)) (usage : Nat)
  | glBufferSubData (target : Nat) (offset : Int) (size : Int) (data : List GLfloat)
  | glVertexAttribPointer (index : Nat) (size : Int) (type : Nat) (normalized : Nat)
      (stride : Int) (pointer : Int)
  | glEnableVertexAttribArray (index : Nat)
  | glCreateShader (type : Nat) (name : Nat)
  | glShaderSource (shader : Nat) (count : Int) (string : String) (length : Int)
  | glCompileShader (shader : Nat)
  | glGetShaderiv (shader : Nat) (pname : Nat) (param : Int)
  | glGetShaderInfoLog (shader : Nat) (bufSize : Int) (infoLog : String)
  | printf (format : String) (args : List String)
  | glCreateProgram (name : Nat)
  | glAttachShader (program : Nat) (shader : Nat)
  | glLinkProgram (program : Nat)
  | glEnable (cap : Nat)
  | glDepthFunc (func : Nat)
  | glUseProgram (program : Nat)
  | glActiveTexture (texture : Nat)
  | glBindTexture (target : Nat) (texture : Nat)
  | glTexParameteri (target : Nat) (pname : Nat) (param : Int)
  | glGenFramebuffers (n : Int) (name : Nat)
  | glBindFramebuffer (target : Nat) (framebuffer : Nat)
  | glDrawBuffer (buf : Nat)
  | glReadBuffer (src : Nat)
  | glGetIntegerv (pname : Nat) (data : Int)
  | glGenTextures (n : Int) (name : Nat)
  | glTexStorage2D (target : Nat) (levels : Int) (internalformat : Nat) (width : Int)
      (height : Int)
  | glFramebufferTexture2D (target : Nat) (attachment : Nat) (textarget : Nat)
      (texture : Nat) (level : Int)
  | glGenRenderbuffers (n : Int) (name : Nat)
  | glBindRenderbuffer (target : Nat) (renderbuffer : Nat)
  | glRenderbufferStorage (target : Nat) (internalformat : Nat) (width : Int) (height : Int)
  | glFramebufferRenderbuffer (target : Nat) (attachment : Nat) (renderbuffertarget : Nat)
      (renderbuffer : Nat)
  | glCheckFramebufferStatus (target : Nat)
  | glViewport (x : Int) (y : Int) (width : Int) (height : Int)
  | glDrawArrays (mode : Nat) (first : Int) (count : Int)
  | glClear (mask : Nat)
  deriving DecidableEq, Repr

/-- Test for a draw call. -/
def Call.isDraw : Call → Bool
  | .glDrawArrays _ _ _ => true
  | _ => false

/-- Test for a `glClear` call. -/
def Call.isClear : Call → Bool
  | .glClear _ => true
  | _ => false

/-- Test for a `glViewport` call. -/
def Call.isViewport : Call → Bool
  | .glViewport _ _ _ _ => true
  | _ => false

/-- How a member function that may terminate the process ends: it returns a
value, calls `exit(status)`, or fails an `assert` (which calls `abort`).  Each
case carries the calls issued up to that point. -/
inductive Run (α : Type) where
  | ret (calls : List Call) (value : α)
  | exit (calls : List Call) (status : Int)
  | abort (calls : List Call)

/-- The calls issued, however the run ended. -/
def Run.calls {α : Type} : Run α → List Call
  | .ret cs _ => cs
  | .exit cs _ => cs
  | .abort cs => cs

/-! ## `struct Uniform` -/

/-- The data members of `struct Uniform`.  The four `TYPE_*` members are
constants with the same value in every object and are definitions below. -/
structure Uniform where
  type : Int
  int_value : Int
  float_value : GLfloat
  vec3_value : Vec3
  mat4_value : Mat4
  deriving DecidableEq, Repr

def Uniform.TYPE_INT : Int := 0
def Uniform.TYPE_FLOAT : Int := 1
def Uniform.TYPE_VEC3 : Int := 2
def Uniform.TYPE_MAT4 : Int := 3

/-- The member `Uniform* operator=(GLint value)`. -/
def Uniform.assignInt (u : Uniform) (value : Int) : Uniform :=
  { u with type := Uniform.TYPE_INT, int_value := value }

/-- The member `Uniform* operator=(GLfloat value)`. -/
def Uniform.assignFloat (u : Uniform) (value : GLfloat) : Uniform :=
  { u with type := Uniform.TYPE_FLOAT, float_value := value }

/-- The member `Uniform* operator=(glm::vec3 vector)`. -/
def Uniform.assignVec3 (u : Uniform) (vector : Vec3) : Uniform :=
  { u with type := Uniform.TYPE_VEC3, vec3_value := vector }

/-- The member `Uniform* operator=(glm::mat4 matrix)`. -/
def Uniform.assignMat4 (u : Uniform) (matrix : Mat4) : Uniform :=
  { u with type := Uniform.TYPE_MAT4, mat4_value := matrix }

/-- The member `Uniform* operator=(Uniform &rhs)`: copies the discriminant and
the one payload it selects. -/
def Uniform.assign (u rhs : Uniform) : Uniform :=
  let u1 := { u with type := rhs.type }
  if u1.type = Uniform.TYPE_INT then { u1 with int_value := rhs.int_value }
  else if u1.type = Uniform.TYPE_FLOAT then { u1 with float_value := rhs.float_value }
  else if u1.type = Uniform.TYPE_VEC3 then { u1 with vec3_value := rhs.vec3_value }
  else if u1.type = Uniform.TYPE_MAT4 then { u1 with mat4_value := rhs.mat4_value }
  else u1

/-- The member `virtual void update(GLint loc)`. -/
def Uniform.update (u : Uniform) (loc : Int) : List Call :=
  if u.type = Uniform.TYPE_INT then [Call.glUniform1i loc u.int_value]
  else if u.type = Uniform.TYPE_FLOAT then [Call.glUniform1f loc u.float_value]
  else if u.type = Uniform.TYPE_VEC3 then
    [Call.glUniform3f loc u.vec3_value.x u.vec3_value.y u.vec3_value.z]
  else if u.type = Uniform.TYPE_MAT4 then
    [Call.glUniformMatrix4fv loc 1 GL_FALSE u.mat4_value]
  else []

/-- One assignment to a `Uniform`: the overload chosen and its argument. -/
inductive Assignment where
  | int (value : Int)
  | float (value : GLfloat)
  | vec3 (vector : Vec3)
  | mat4 (matrix : Mat4)
  | copy (rhs : Uniform)

/-- The assignment `u = a`, resolved to the matching `operator=`. -/
def Uniform.set (u : Uniform) : Assignment → Uniform
  | .int value => u.assignInt value
  | .float value => u.assignFloat value
  | .vec3 vector => u.assignVec3 vector
  | .mat4 matrix => u.assignMat4 matrix
  | .copy rhs => u.assign rhs

/-- A sequence of assignments, first to last. -/
def Uniform.setAll (u : Uniform) (seq : List Assignment) : Uniform :=
  seq.foldl Uniform.set u

/-- The discriminant of a `Uniform` is one of the four kinds. -/
def Uniform.typed (u : Uniform) : Prop :=
  u.type = Uniform.TYPE_INT ∨ u.type = Uniform.TYPE_FLOAT ∨
    u.type = Uniform.TYPE_VEC3 ∨ u.type = Uniform.TYPE_MAT4

instance (u : Uniform) : Decidable u.typed :=
  inferInstanceAs (Decidable (_ ∨ _ ∨ _ ∨ _))

/-- The source of an assignment is an int, a float, a 3-vector, a matrix, or
a `Uniform` whose discriminant is one of the four kinds. -/
def Assignment.wellTyped : Assignment → Prop
  | .copy rhs => rhs.typed
  | _ => True

instance (a : Assignment) : Decidable a.wellTyped :=
  match a with
  | .int _ => isTrue trivial
  | .float _ => isTrue trivial
  | .vec3 _ => isTrue trivial
  | .mat4 _ => isTrue trivial
  | .copy rhs => inferInstanceAs (Decidable rhs.typed)

/-- The transfer the most recent assignment `a` calls for at location `loc`:
the call of the kind of its source, with the payload of its source. -/
def Assignment.transfer (loc : Int) : Assignment → Call
  | .int value => Call.glUniform1i loc value
  | .float value => Call.glUniform1f loc value
  | .vec3 vector => Call.glUniform3f loc vector.x vector.y vector.z
  | .mat4 matrix => Call.glUniformMatrix4fv loc 1 GL_FALSE matrix
  | .copy rhs =>
    if rhs.type = Uniform.TYPE_INT then Call.glUniform1i loc rhs.int_value
    else if rhs.type = Uniform.TYPE_FLOAT then Call.glUniform1f loc rhs.float_value
    else if rhs.type = Uniform.TYPE_VEC3 then
      Call.glUniform3f loc rhs.vec3_value.x rhs.vec3_value.y rhs.vec3_value.z
    else Call.glUniformMatrix4fv loc 1 GL_FALSE rhs.mat4_value

/-! ## `readFile` -/

/-- The function `readFile`.  `dir` is the directory part of `__FILE__`;
`content` is `none` when the stream could not be opened and otherwise the text
the `getline` loop accumulates (every line followed by a line break). -/
def readFile (dir file : String) (content : Option String) : Run String :=
  match content with
  | none => Run.exit [Call.printf "I could not find \"%s\" in \"%s\".\n" [file, dir]] EXIT_FAILURE
  | some text => Run.ret [] text

/-! ## `struct VertexArray` -/

/-- The data members of `struct VertexArray`. -/
structure VertexArray where
  id : Nat
  size : Int
  num_attribs : Int
  deriving DecidableEq, Repr

/-- The inner loop of the byte count, over the groups `vertices[i][j]` of one
vertex: `bytes += vertices[i][j].size() * sizeof(GLfloat)`. -/
def countGroups : List (List GLfloat) → Int → Int
  | [], bytes => bytes
  | g :: gs, bytes => countGroups gs (bytes + ((g.length * sizeofGLfloat : Nat) : Int))

/-- The outer loop of the byte count, over the vertices. -/
def countBytes : List (List (List GLfloat)) → Int → Int
  | [], bytes => bytes
  | v :: vs, bytes => countBytes vs (countGroups v bytes)

/-- The inner loop of the upload: `int n = vertices[i][j].size() * sizeof(GLfloat);
glBufferSubData(GL_ARRAY_BUFFER, offset, n, vertices[i][j].data()); offset += n;`.
Returns the calls and the final `offset`. -/
def uploadGroups : List (List GLfloat) → Int → List Call × Int
  | [], offset => ([], offset)
  | g :: gs, offset =>
    let n := toGLint ((g.length * sizeofGLfloat : Nat) : Int)
    let rest := uploadGroups gs (offset + n)
    (Call.glBufferSubData GL_ARRAY_BUFFER offset n g :: rest.1, rest.2)

/-- The outer loop of the upload, over the vertices. -/
def uploadVertices : List (List (List GLfloat)) → Int → List Call × Int
  | [], offset => ([], offset)
  | v :: vs, offset =>
    let first := uploadGroups v offset
    let rest := uploadVertices vs first.2
    (first.1 ++ rest.1, rest.2)

/-- The layout loop over the groups of `vertices[0]`, from index `i` and byte
offset `offset`: `glVertexAttribPointer(i, vertices[0][i].size(), GL_FLOAT,
GL_FALSE, bytes/size, (GLvoid*) offset); glEnableVertexAttribArray(i);
offset += vertices[0][i].size() * sizeof(GLfloat);`.  `bytes/size` is the
truncating division of C++, converted to `GLsizei`. -/
def declareAttribs (bytes size : Int) : List (List GLfloat) → Nat → Int → List Call
  | [], _, _ => []
  | g :: gs, i, offset =>
    Call.glVertexAttribPointer i (toGLint g.length) GL_FLOAT GL_FALSE
        (toGLint (Int.tdiv bytes size)) offset ::
      Call.glEnableVertexAttribArray i ::
      declareAttribs bytes size gs ((i + 1) % 4294967296)
        (offset + ((g.length * sizeofGLfloat : Nat) : Int))

/-- The constructor `VertexArray(std::vector<std::vector<std::vector<GLfloat>>>)`.
`id` and `buffer` are the names written by `glGenVertexArrays` and
`glGenBuffers`.  The result is `none` where the source has undefined
behaviour: `vertices[0]` of an empty vector, or the division `bytes/size` by a
`size` that is zero.  The loop counters are 32-bit unsigned and compared with a
`size_t`; the vectors are taken to be shorter than `2^32`, so the loops visit
every element once. -/
def VertexArray.new (vertices : List (List (List GLfloat))) (id buffer : Nat) :
    Option (List Call × VertexArray) :=
  match vertices with
  | [] => none
  | v0 :: _ =>
    let size := toGLint vertices.length
    let num_attribs := toGLint v0.length
    let bytes := countBytes vertices 0
    if size = 0 ∧ v0 ≠ [] then none
    else
      some ([Call.glGenVertexArrays 1 id, Call.glBindVertexArray id,
          Call.glGenBuffers 1 buffer, Call.glBindBuffer GL_ARRAY_BUFFER buffer,
          Call.glBufferData GL_ARRAY_BUFFER bytes none GL_STATIC_DRAW]
          ++ (uploadVertices vertices 0).1
          ++ declareAttribs bytes size v0 0 0,
        { id := id, size := size, num_attribs := num_attribs })

/-! ### The data store of the array buffer

`glBufferData` allocates a store, uninitialised when its data pointer is null
(`none`), as it is in the constructor;
`glBufferSubData(target, offset, size, data)` copies `size` bytes of `data` to
the bytes `[offset, offset + size)` of the store.  The store is read and
written in units of one `GLfloat` and is keyed by the byte offset of the
float's first byte. -/

/-- The store after one call. -/
def Call.store (m : Int → Option GLfloat) : Call → Int → Option GLfloat
  | .glBufferData _ _ _ _ => fun _ => none
  | .glBufferSubData _ offset size data => fun x =>
      if offset ≤ x ∧ x + 4 ≤ offset + size ∧ (x - offset) % 4 = 0 then
        data[((x - offset) / 4).toNat]?
      else m x
  | _ => m

/-- The store after a list of calls, starting with no store. -/
def bufferStore (calls : List Call) : Int → Option GLfloat :=
  calls.foldl Call.store (fun _ => none)

/-- The byte range `(offset, size)` a `glBufferSubData` call writes. -/
def Call.subData : Call → Option (Int × Int)
  | .glBufferSubData _ offset size _ => some (offset, size)
  | _ => none

/-- The byte ranges `(offset, size)` written by `glBufferSubData`, in call order. -/
def subDataWrites (calls : List Call) : List (Int × Int) :=
  calls.filterMap Call.subData

/-- Number of writes whose byte range contains the byte `x`. -/
def coverCount (writes : List (Int × Int)) (x : Int) : Nat :=
  (writes.filter (fun w => decide (w.1 ≤ x ∧ x < w.1 + w.2))).length

/-- The `(index, size, stride, pointer)` a `glVertexAttribPointer` call declares. -/
def Call.attribPointer : Call → Option (Nat × Int × Int × Int)
  | .glVertexAttribPointer index size _ _ stride pointer => some (index, size, stride, pointer)
  | _ => none

/-- The layout declared by `glVertexAttribPointer`, in call order:
`(index, size, stride, pointer)`. -/
def declaredLayout (calls : List Call) : List (Nat × Int × Int × Int) :=
  calls.filterMap Call.attribPointer

/-- The layout the constructor is to declare for groups of component counts
`cs`, from index `i` and byte offset `offset`: group after group, each starting
where the one before ends. -/
def layoutFrom (stride : Int) : List Nat → Nat → Int → List (Nat × Int × Int × Int)
  | [], _, _ => []
  | c :: cs, i, offset =>
    (i, (c : Int), stride, offset) ::
      layoutFrom stride cs (i + 1) (offset + ((4 * c : Nat) : Int))

/-- Attribute of vertex `v` as the vertex fetch reads it from store `m` through
a declared layout: `size` floats, component `c` at byte
`v * stride + pointer + 4 * c`. -/
def readAttrib (m : Int → Option GLfloat) (size stride pointer : Int) (v : Nat) :
    List (Option GLfloat) :=
  (List.range size.toNat).map
    (fun (c : Nat) => m ((v : Int) * stride + pointer + 4 * (c : Int)))

/-! ## `struct Shader` -/

/-- The member struct `Shader::TextureReadMode` with its default member initialisers. -/
structure TextureReadMode where
  minfilter : Int := GL_LINEAR
  magfilter : Int := GL_LINEAR
  wrapx : Int := GL_REPEAT
  wrapy : Int := GL_REPEAT
  deriving DecidableEq, Repr

/-- The member struct `Shader::Execution` with its default member initialisers. -/
structure Execution where
  nvertices : Int := 0
  primitive : Nat := GL_TRIANGLES
  deriving DecidableEq, Repr

/-- The data members of `struct Shader`. -/
structure Shader where
  frag : Nat
  vert : Nat
  program : Nat
  tex_read_mode : TextureReadMode := {}
  execution : Execution := {}
  deriving DecidableEq, Repr

/-- The constructor `Shader(std::string name)`.  `frag`, `vert`, `program` are
the names returned by `glCreateShader` and `glCreateProgram`; `frag_file` and
`vert_file` are what `readFile` finds; the compile statuses and info logs are
the answers of the driver. -/
def Shader.new (name dir : String) (frag vert : Nat) (frag_file vert_file : Option String)
    (is_frag_compiled is_vert_compiled : Int) (frag_log vert_log : String) (program : Nat) :
    Run Shader :=
  let c0 := [Call.glCreateShader GL_FRAGMENT_SHADER frag,
    Call.glCreateShader GL_VERTEX_SHADER vert]
  match readFile dir (name ++ ".frag") frag_file with
  | Run.exit cs status => Run.exit (c0 ++ cs) status
  | Run.abort cs => Run.abort (c0 ++ cs)
  | Run.ret cs1 frag_source =>
    match readFile dir (name ++ ".vert") vert_file with
    | Run.exit cs status => Run.exit (c0 ++ cs1 ++ cs) status
    | Run.abort cs => Run.abort (c0 ++ cs1 ++ cs)
    | Run.ret cs2 vert_source =>
      let c1 := c0 ++ cs1 ++ cs2 ++
        [Call.glShaderSource frag 1 frag_source (toGLint frag_source.utf8ByteSize),
         Call.glShaderSource vert 1 vert_source (toGLint vert_source.utf8ByteSize),
         Call.glCompileShader frag, Call.glCompileShader vert,
         Call.glGetShaderiv frag GL_COMPILE_STATUS is_frag_compiled,
         Call.glGetShaderiv vert GL_COMPILE_STATUS is_vert_compiled]
      if is_frag_compiled ≠ GL_TRUE ∨ is_vert_compiled ≠ GL_TRUE then
        Run.exit (c1 ++
          [Call.glGetShaderInfoLog frag 1024 frag_log,
           Call.printf "In %s.frag: %s\n" [name, frag_log],
           Call.glGetShaderInfoLog vert 1024 vert_log,
           Call.printf "In %s.vert: %s\n" [name, vert_log]]) EXIT_FAILURE
      else
        Run.ret (c1 ++
          [Call.glCreateProgram program, Call.glAttachShader program frag,
           Call.glAttachShader program vert, Call.glLinkProgram program,
           Call.glEnable GL_DEPTH_TEST, Call.glDepthFunc GL_LESS])
          { frag := frag, vert := vert, program := program }

/-- The uniform loop of `Shader::operator()`, entered with counter `uloc`:
`for(...; uloc < uniforms.size(); uloc++)
uniforms.begin()[uloc]->update(vao.num_attribs + uloc);`.
The sum of a `GLint` and a `GLuint` is unsigned and is converted to the
`GLint` parameter of `update`.  Returns the calls and the final `uloc`. -/
def uniformLoop (vao : VertexArray) : List Uniform → Nat → List Call × Nat
  | [], uloc => ([], uloc)
  | u :: us, uloc =>
    let calls := u.update (toGLint (((toGLuint vao.num_attribs + uloc) % 4294967296 : Nat) : Int))
    let rest := uniformLoop vao us ((uloc + 1) % 4294967296)
    (calls ++ rest.1, rest.2)

/-- The texture loop of `Shader::operator()`, entered with counters `tunit`
and `uloc`: binds the texture to unit `tunit`, sets the four sampling
parameters and issues `glUniform1i(uloc, tunit)`. -/
def textureLoop (mode : TextureReadMode) : List Nat → Nat → Nat → List Call
  | [], _, _ => []
  | t :: ts, tunit, uloc =>
    [Call.glActiveTexture ((GL_TEXTURE0 + tunit) % 4294967296),
     Call.glBindTexture GL_TEXTURE_2D t,
     Call.glTexParameteri GL_TEXTURE_2D GL_TEXTURE_MIN_FILTER mode.minfilter,
     Call.glTexParameteri GL_TEXTURE_2D GL_TEXTURE_MAG_FILTER mode.magfilter,
     Call.glTexParameteri GL_TEXTURE_2D GL_TEXTURE_WRAP_S mode.wrapx,
     Call.glTexParameteri GL_TEXTURE_2D GL_TEXTURE_WRAP_T mode.wrapy,
     Call.glUniform1i (toGLint (uloc : Nat)) (toGLint (tunit : Nat))]
    ++ textureLoop mode ts ((tunit + 1) % 4294967296) ((uloc + 1) % 4294967296)

/-- The member `Execution& operator()(VertexArray&, std::initializer_list<Uniform*>,
std::initializer_list<GLuint>)`: the calls issued, the shader with its
`execution` member updated, and the `Execution` the returned reference
denotes.  The lists are initializer lists, shorter than `2^32`. -/
def Shader.invoke (sh : Shader) (vao : VertexArray) (uniforms : List Uniform)
    (textures : List Nat) : List Call × Shader × Execution :=
  let u := uniformLoop vao uniforms 0
  let t := textureLoop sh.tex_read_mode textures 0 u.2
  let execution : Execution := { sh.execution with nvertices := vao.size }
  ([Call.glUseProgram sh.program, Call.glBindVertexArray vao.id] ++ u.1 ++ t,
    { sh with execution := execution }, execution)

/-- The location argument of a `glUniform*` call. -/
def Call.uniformLocation : Call → Option Int
  | .glUniform1i location _ => some location
  | .glUniform1f location _ => some location
  | .glUniform3f location _ _ _ => some location
  | .glUniformMatrix4fv location _ _ _ => some location
  | _ => none

/-- The pushes of the uniforms of a list, in list order, the `i`-th at
location `A + i`. -/
def uniformPushes (A : Int) (uniforms : List Uniform) : List Call :=
  (uniforms.enum.map (fun p => p.2.update (A + (p.1 : Int)))).flatten

/-- The shader after a list of earlier invocations, first to last. -/
def Shader.afterInvocations (sh : Shader)
    (history : List (VertexArray × List Uniform × List Nat)) : Shader :=
  history.foldl (fun s a => (s.invoke a.1 a.2.1 a.2.2).2.1) sh

/-! ## `struct Framebuffer` -/

/-- The data members of `struct Framebuffer`.  `zbuffer` and `sbuffer` are not
initialised by the constructors; `none` stands for the indeterminate value. -/
structure Framebuffer where
  w : Int
  h : Int
  framebuffer : Nat
  cbuffers : List Nat
  zbuffer : Option Nat
  sbuffer : Option Nat
  deriving DecidableEq, Repr

/-- The constructor `Framebuffer()`: the on-screen target. -/
def Framebuffer.default : List Call × Framebuffer :=
  ([Call.glBindFramebuffer GL_FRAMEBUFFER 0, Call.glDrawBuffer GL_BACK,
    Call.glReadBuffer GL_BACK],
   { w := 0, h := 0, framebuffer := 0, cbuffers := [], zbuffer := none, sbuffer := none })

/-- The constructor `Framebuffer(GLsizei width, GLsizei height)`; `name` is
the name written by `glGenFramebuffers`. -/
def Framebuffer.new (width height : Int) (name : Nat) : List Call × Framebuffer :=
  ([Call.glGenFramebuffers 1 name, Call.glBindFramebuffer GL_FRAMEBUFFER name,
    Call.glDrawBuffer GL_NONE, Call.glReadBuffer GL_NONE],
   { w := width, h := height, framebuffer := name, cbuffers := [], zbuffer := none,
     sbuffer := none })

/-- The member `attachColorBufferTexture(GLenum sized_format)`.
`maxColorAttachments` is the answer of `glGetIntegerv`, `name` the name written
by `glGenTextures`; `ndebug` says whether `assert` is compiled out.  The
comparison of the `size_t` with the `int` converts the `int`. -/
def Framebuffer.attachColorBufferTexture (fb : Framebuffer) (sized_format : Nat)
    (maxColorAttachments : Int) (name : Nat) (ndebug : Bool) : Run Framebuffer :=
  let c0 := [Call.glGetIntegerv GL_MAX_COLOR_ATTACHMENTS maxColorAttachments]
  if ¬ ndebug ∧ ¬ (fb.cbuffers.length < toSizeT maxColorAttachments) then Run.abort c0
  else
    let cbuffers := fb.cbuffers ++ [name]
    let point := (GL_COLOR_ATTACHMENT0 + cbuffers.length) % 4294967296
    Run.ret (c0 ++
      [Call.glGenTextures 1 name, Call.glBindTexture GL_TEXTURE_2D name,
       Call.glTexStorage2D GL_TEXTURE_2D 1 sized_format fb.w fb.h,
       Call.glBindFramebuffer GL_FRAMEBUFFER fb.framebuffer,
       Call.glFramebufferTexture2D GL_FRAMEBUFFER point GL_TEXTURE_2D name 0,
       Call.glDrawBuffer point, Call.glReadBuffer point])
      { fb with cbuffers := cbuffers }

/-- The member `attachZBufferTexture(GLenum sized_format)`. -/
def Framebuffer.attachZBufferTexture (fb : Framebuffer) (sized_format : Nat) (name : Nat) :
    List Call × Framebuffer :=
  ([Call.glGenTextures 1 name, Call.glBindTexture GL_TEXTURE_2D name,
    Call.glTexStorage2D GL_TEXTURE_2D 1 sized_format fb.w fb.h,
    Call.glBindFramebuffer GL_FRAMEBUFFER fb.framebuffer,
    Call.glFramebufferTexture2D GL_FRAMEBUFFER GL_DEPTH_ATTACHMENT GL_TEXTURE_2D name 0],
   { fb with zbuffer := some name })

/-- The member `attachStencilBufferTexture(GLenum sized_format)`. -/
def Framebuffer.attachStencilBufferTexture (fb : Framebuffer) (sized_format : Nat)
    (name : Nat) : List Call × Framebuffer :=
  ([Call.glGenTextures 1 name, Call.glBindTexture GL_TEXTURE_2D name,
    Call.glTexStorage2D GL_TEXTURE_2D 1 sized_format fb.w fb.h,
    Call.glBindFramebuffer GL_FRAMEBUFFER fb.framebuffer,
    Call.glFramebufferTexture2D GL_FRAMEBUFFER GL_DEPTH_ATTACHMENT GL_TEXTURE_2D name 0],
   { fb with sbuffer := some name })

/-- The member `attachColorRenderbuffer(GLenum format)`. -/
def Framebuffer.attachColorRenderbuffer (fb : Framebuffer) (format : Nat) (name : Nat) :
    List Call × Framebuffer :=
  let cbuffers := fb.cbuffers ++ [name]
  let point := (GL_COLOR_ATTACHMENT0 + cbuffers.length) % 4294967296
  ([Call.glGenRenderbuffers 1 name, Call.glBindRenderbuffer GL_RENDERBUFFER name,
    Call.glRenderbufferStorage GL_RENDERBUFFER format fb.w fb.h,
    Call.glBindFramebuffer GL_FRAMEBUFFER fb.framebuffer,
    Call.glFramebufferRenderbuffer GL_FRAMEBUFFER point GL_RENDERBUFFER name,
    Call.glDrawBuffer GL_BACK, Call.glReadBuffer GL_BACK],
   { fb with cbuffers := cbuffers })

/-- The shared body of the three depth/stencil renderbuffer members, which
differ in the attachment point only. -/
def Framebuffer.attachRenderbufferAt (fb : Framebuffer) (point format : Nat) (b : Nat) :
    List Call × Framebuffer :=
  ([Call.glGenRenderbuffers 1 b, Call.glBindRenderbuffer GL_RENDERBUFFER b,
    Call.glRenderbufferStorage GL_RENDERBUFFER format fb.w fb.h,
    Call.glBindFramebuffer GL_FRAMEBUFFER fb.framebuffer,
    Call.glFramebufferRenderbuffer GL_FRAMEBUFFER point GL_RENDERBUFFER b],
   fb)

/-- The member `attachZRenderbuffer(GLenum format)`. -/
def Framebuffer.attachZRenderbuffer (fb : Framebuffer) (format : Nat) (b : Nat) :
    List Call × Framebuffer :=
  fb.attachRenderbufferAt GL_DEPTH_ATTACHMENT format b

/-- The member `attachStencilRenderbuffer(GLenum format)`. -/
def Framebuffer.attachStencilRenderbuffer (fb : Framebuffer) (format : Nat) (b : Nat) :
    List Call × Framebuffer :=
  fb.attachRenderbufferAt GL_STENCIL_ATTACHMENT format b

/-- The member `attachDepthAndStencilRenderbuffers(GLenum format)`. -/
def Framebuffer.attachDepthAndStencilRenderbuffers (fb : Framebuffer) (format : Nat)
    (b : Nat) : List Call × Framebuffer :=
  fb.attachRenderbufferAt GL_DEPTH_STENCIL_ATTACHMENT format b

/-- The member `void operator=(Shader::Execution& shader_exec)`; `status` is
the value returned by `glCheckFramebufferStatus`. -/
def Framebuffer.execute (fb : Framebuffer) (status : Nat) (shader_exec : Execution) :
    Run Unit :=
  let c0 := [Call.glBindFramebuffer GL_FRAMEBUFFER fb.framebuffer,
    Call.glCheckFramebufferStatus GL_FRAMEBUFFER]
  if status ≠ GL_FRAMEBUFFER_COMPLETE then Run.exit c0 1
  else
    let c1 := if fb.framebuffer ≠ 0 then c0 ++ [Call.glViewport 0 0 fb.w fb.h] else c0
    Run.ret (c1 ++ [Call.glDrawArrays shader_exec.primitive 0 shader_exec.nvertices]) ()

/-- The member `void clear(GLbitfield buffers)`; `status` is the value returned
by `glCheckFramebufferStatus`. -/
def Framebuffer.clear (fb : Framebuffer) (status : Nat) (buffers : Nat) : Run Unit :=
  let c0 := [Call.glBindFramebuffer GL_FRAMEBUFFER fb.framebuffer,
    Call.glCheckFramebufferStatus GL_FRAMEBUFFER]
  if status ≠ GL_FRAMEBUFFER_COMPLETE then Run.exit c0 1
  else Run.ret (c0 ++ [Call.glClear buffers]) ()

/-! ## Data of `main` -/

/-- The float `-1`. -/
def fNeg1 : GLfloat := ⟨0xBF800000⟩
/-- The float `0`. -/
def f0 : GLfloat := ⟨0x00000000⟩
/-- The float `1`. -/
def f1 : GLfloat := ⟨0x3F800000⟩

/-- The argument of `VertexArray triangle(...)` in `main`. -/
def triangleVertices : List (List (List GLfloat)) :=
  [[[fNeg1, fNeg1, f0, f1], [f1, f0, f0, f1]],
   [[fNeg1, f1, f0, f1], [f0, f1, f0, f1]],
   [[f1, fNeg1, f0, f1], [f0, f0, f1, f1]]]

/-- The argument of `VertexArray quad(...)` in `main`. -/
def quadVertices : List (List (List GLfloat)) :=
  [[[fNeg1, f1], [f0, f1]],
   [[f1, fNeg1], [f1, f0]],
   [[fNeg1, fNeg1], [f0, f0]],
   [[fNeg1, f1], [f0, f1]],
   [[f1, f1], [f1, f1]],
   [[f1, fNeg1], [f1, f0]]]

/-- The matrix `glm::mat4(1)`. -/
def mat4Identity : Mat4 :=
  ⟨⟨f1, f0, f0, f0⟩, ⟨f0, f1, f0, f0⟩, ⟨f0, f0, f1, f0⟩, ⟨f0, f0, f0, f1⟩⟩

/-- A `Uniform` that was assigned the matrix `m`, its other members zero. -/
def uniformOfMat4 (m : Mat4) : Uniform :=
  Uniform.assignMat4 ⟨0, 0, f0, ⟨f0, f0, f0⟩, m⟩ m

/-! # Theorems -/

/-! ## Machine integers within range -/

/-- A value in the range of a signed 32-bit type is unchanged by the conversion. -/
theorem toGLint_of_range (z : Int) (hlo : -2147483648 ≤ z) (hhi : z < 2147483648) :
    toGLint z = z := by
  unfold toGLint; omega

/-- A non-negative value below `2^32` is unchanged by the conversion to unsigned. -/
theorem toGLuint_of_nonneg (z : Int) (hlo : 0 ≤ z) (hhi : z < 4294967296) :
    ((toGLuint z : Nat) : Int) = z := by
  unfold toGLuint; omega

/-! ## `Uniform` -/

/-- One assignment from a well-typed source, then `update`: one transfer, of
the kind and with the payload of the source. -/
theorem Uniform.update_set (u : Uniform) (a : Assignment) (h : a.wellTyped) (loc : Int) :
    (u.set a).update loc = [a.transfer loc] := by
  cases a with
  | int value => rfl
  | float value => rfl
  | vec3 vector => rfl
  | mat4 matrix => rfl
  | copy rhs =>
    simp only [Assignment.wellTyped, Uniform.typed] at h
    simp only [Uniform.set, Uniform.assign, Uniform.update, Assignment.transfer]
    rcases h with h | h | h | h <;>
      simp [h, Uniform.TYPE_INT, Uniform.TYPE_FLOAT, Uniform.TYPE_VEC3, Uniform.TYPE_MAT4]

/-- C9. After any non-empty sequence of assignments to a `Uniform` (whatever
its members held before), the last of them from an int, a float, a 3-vector, a
matrix or a `Uniform` with one of the four discriminants, `update(loc)` issues
exactly one call: the transfer of the kind of the most recent assignment, at
`loc`, carrying the payload of that assignment and nothing left from earlier
assignments. -/
theorem Uniform.update_after_assignments (u0 : Uniform) (seq : List Assignment)
    (hne : seq ≠ []) (hty : (seq.getLast hne).wellTyped) (loc : Int) :
    (u0.setAll seq).update loc = [(seq.getLast hne).transfer loc] := by
  have hsplit : seq = seq.dropLast ++ [seq.getLast hne] :=
    (List.dropLast_append_getLast hne).symm
  have hfold : u0.setAll seq = (u0.setAll seq.dropLast).set (seq.getLast hne) := by
    conv_lhs => rw [hsplit]
    simp [Uniform.setAll, List.foldl_append]
  rw [hfold]
  exact Uniform.update_set _ _ hty loc

/-- C9 at a concrete input: a `Uniform` with a garbage discriminant is assigned
an int, then a vector, then a copy of a float `Uniform`; `update(3)` sends the
float. -/
theorem Uniform.update_after_assignments_witness :
    (Assignment.copy ⟨1, 9, f1, ⟨f0, f0, f0⟩, mat4Identity⟩).wellTyped ∧
    (Uniform.setAll ⟨7, 0, f0, ⟨f0, f0, f0⟩, mat4Identity⟩
      [Assignment.int 5, Assignment.vec3 ⟨f1, f0, f1⟩,
       Assignment.copy ⟨1, 9, f1, ⟨f0, f0, f0⟩, mat4Identity⟩]).update 3
      = [Call.glUniform1f 3 f1] :=
  ⟨by decide, Uniform.update_after_assignments _ _ (by simp) (by decide) 3⟩

/-! ## `Framebuffer` -/

/-- C4. Whenever `glCheckFramebufferStatus` returns anything but
`GL_FRAMEBUFFER_COMPLETE`, both `operator=` (execute) and `clear` end in
`exit` with a non-zero status, and no call issued before that is a
`glDrawArrays`, a `glClear` or a `glViewport`. -/
theorem Framebuffer.incomplete_is_fatal (fb : Framebuffer) (status : Nat)
    (hinc : status ≠ GL_FRAMEBUFFER_COMPLETE) (shader_exec : Execution) (buffers : Nat) :
    (∃ calls code, fb.execute status shader_exec = Run.exit calls code ∧ code ≠ 0 ∧
      ∀ c ∈ calls, c.isDraw = false ∧ c.isClear = false ∧ c.isViewport = false) ∧
    (∃ calls code, fb.clear status buffers = Run.exit calls code ∧ code ≠ 0 ∧
      ∀ c ∈ calls, c.isDraw = false ∧ c.isClear = false ∧ c.isViewport = false) := by
  constructor
  · refine ⟨[Call.glBindFramebuffer GL_FRAMEBUFFER fb.framebuffer,
      Call.glCheckFramebufferStatus GL_FRAMEBUFFER], 1, ?_, by decide, ?_⟩
    · simp only [Framebuffer.execute, if_pos hinc]
    · intro c hc
      simp only [List.mem_cons, List.mem_singleton, List.not_mem_nil, or_false] at hc
      rcases hc with rfl | rfl <;> exact ⟨rfl, rfl, rfl⟩
  · refine ⟨[Call.glBindFramebuffer GL_FRAMEBUFFER fb.framebuffer,
      Call.glCheckFramebufferStatus GL_FRAMEBUFFER], 1, ?_, by decide, ?_⟩
    · simp only [Framebuffer.clear, if_pos hinc]
    · intro c hc
      simp only [List.mem_cons, List.mem_singleton, List.not_mem_nil, or_false] at hc
      rcases hc with rfl | rfl <;> exact ⟨rfl, rfl, rfl⟩

/-- C4 at a concrete input: an off-screen target without attachments, for
which the driver answers `GL_FRAMEBUFFER_INCOMPLETE_MISSING_ATTACHMENT`
(`0x8CD7`). -/
theorem Framebuffer.incomplete_is_fatal_witness :
    (0x8CD7 : Nat) ≠ GL_FRAMEBUFFER_COMPLETE ∧
    ((∃ calls code, (Framebuffer.new 1024 1024 1).2.execute 0x8CD7 ⟨3, GL_TRIANGLES⟩
        = Run.exit calls code ∧ code ≠ 0 ∧
      ∀ c ∈ calls, c.isDraw = false ∧ c.isClear = false ∧ c.isViewport = false) ∧
    (∃ calls code, (Framebuffer.new 1024 1024 1).2.clear 0x8CD7 GL_DEPTH_BUFFER_BIT
        = Run.exit calls code ∧ code ≠ 0 ∧
      ∀ c ∈ calls, c.isDraw = false ∧ c.isClear = false ∧ c.isViewport = false)) :=
  ⟨by decide, Framebuffer.incomplete_is_fatal _ _ (by decide) _ _⟩

/-- C7. On a complete framebuffer, `operator=` (execute) issues, in this order:
the bind of the target's handle, the completeness check, `glViewport(0, 0, w, h)`
exactly when the handle is not `0`, and one `glDrawArrays(d.primitive, 0,
d.nvertices)`.  So the trace holds exactly one draw call, holds the viewport
call if and only if the target is off-screen, and holds no viewport call for
handle `0`. -/
theorem Framebuffer.execute_complete (fb : Framebuffer) (d : Execution) :
    fb.execute GL_FRAMEBUFFER_COMPLETE d =
      Run.ret
        ([Call.glBindFramebuffer GL_FRAMEBUFFER fb.framebuffer,
          Call.glCheckFramebufferStatus GL_FRAMEBUFFER]
          ++ (if fb.framebuffer ≠ 0 then [Call.glViewport 0 0 fb.w fb.h] else [])
          ++ [Call.glDrawArrays d.primitive 0 d.nvertices]) () ∧
    (fb.execute GL_FRAMEBUFFER_COMPLETE d).calls.filter Call.isDraw =
      [Call.glDrawArrays d.primitive 0 d.nvertices] ∧
    (fb.execute GL_FRAMEBUFFER_COMPLETE d).calls.filter Call.isViewport =
      (if fb.framebuffer ≠ 0 then [Call.glViewport 0 0 fb.w fb.h] else []) ∧
    (fb.framebuffer = 0 →
      ∀ c ∈ (fb.execute GL_FRAMEBUFFER_COMPLETE d).calls, c.isViewport = false) := by
  by_cases h : fb.framebuffer = 0
  · simp [Framebuffer.execute, h, Run.calls, Call.isDraw, Call.isViewport]
  · simp [Framebuffer.execute, h, Run.calls, Call.isDraw, Call.isViewport]

/-- Every color renderbuffer attach appends the new name to `cbuffers` and
uses the attachment point `GL_COLOR_ATTACHMENT0 + (n + 1)`, where `n` is the
number of color attachments before the call. -/
theorem Framebuffer.attachColorRenderbuffer_point (fb : Framebuffer) (format name : Nat) :
    (fb.attachColorRenderbuffer format name).2.cbuffers = fb.cbuffers ++ [name] ∧
    Call.glFramebufferRenderbuffer GL_FRAMEBUFFER
        ((GL_COLOR_ATTACHMENT0 + (fb.cbuffers.length + 1)) % 4294967296) GL_RENDERBUFFER name
      ∈ (fb.attachColorRenderbuffer format name).1 := by
  simp [Framebuffer.attachColorRenderbuffer]

/-- C5, the code at the failing input: the first color attach on a fresh
off-screen target (`n = 0`), with `GL_RGBA8` (`0x8058`).  Both color attach
members append the new name to `cbuffers`, and both bind it to
`GL_COLOR_ATTACHMENT0 + 1`, which is not the attachment point
`GL_COLOR_ATTACHMENT0 + 0` the claim states. -/
theorem Framebuffer.attachColor_first_point :
    (Framebuffer.new 1024 1024 1).2.attachColorBufferTexture 0x8058 8 5 false =
      Run.ret
        [Call.glGetIntegerv GL_MAX_COLOR_ATTACHMENTS 8,
         Call.glGenTextures 1 5, Call.glBindTexture GL_TEXTURE_2D 5,
         Call.glTexStorage2D GL_TEXTURE_2D 1 0x8058 1024 1024,
         Call.glBindFramebuffer GL_FRAMEBUFFER 1,
         Call.glFramebufferTexture2D GL_FRAMEBUFFER (GL_COLOR_ATTACHMENT0 + 1) GL_TEXTURE_2D 5 0,
         Call.glDrawBuffer (GL_COLOR_ATTACHMENT0 + 1),
         Call.glReadBuffer (GL_COLOR_ATTACHMENT0 + 1)]
        { w := 1024, h := 1024, framebuffer := 1, cbuffers := [5], zbuffer := none,
          sbuffer := none } ∧
    (Framebuffer.new 1024 1024 1).2.attachColorRenderbuffer 0x8058 5 =
      ([Call.glGenRenderbuffers 1 5, Call.glBindRenderbuffer GL_RENDERBUFFER 5,
        Call.glRenderbufferStorage GL_RENDERBUFFER 0x8058 1024 1024,
        Call.glBindFramebuffer GL_FRAMEBUFFER 1,
        Call.glFramebufferRenderbuffer GL_FRAMEBUFFER (GL_COLOR_ATTACHMENT0 + 1)
          GL_RENDERBUFFER 5,
        Call.glDrawBuffer GL_BACK, Call.glReadBuffer GL_BACK],
       { w := 1024, h := 1024, framebuffer := 1, cbuffers := [5], zbuffer := none,
         sbuffer := none }) ∧
    GL_COLOR_ATTACHMENT0 + 1 ≠ GL_COLOR_ATTACHMENT0 + 0 :=
  ⟨rfl, rfl, by decide⟩

/-- C6, the code at the failing input: `attachStencilBufferTexture` on a fresh
off-screen target, with `GL_STENCIL_INDEX8` (`0x8D48`).  The texture gets the
target's dimensions and its name is stored in `sbuffer`, but it is bound to
`GL_DEPTH_ATTACHMENT`, which is not `GL_STENCIL_ATTACHMENT`; the sibling
`attachStencilRenderbuffer` binds to `GL_STENCIL_ATTACHMENT`. -/
theorem Framebuffer.attachStencil_point :
    (Framebuffer.new 1024 1024 1).2.attachStencilBufferTexture 0x8D48 5 =
      ([Call.glGenTextures 1 5, Call.glBindTexture GL_TEXTURE_2D 5,
        Call.glTexStorage2D GL_TEXTURE_2D 1 0x8D48 1024 1024,
        Call.glBindFramebuffer GL_FRAMEBUFFER 1,
        Call.glFramebufferTexture2D GL_FRAMEBUFFER GL_DEPTH_ATTACHMENT GL_TEXTURE_2D 5 0],
       { w := 1024, h := 1024, framebuffer := 1, cbuffers := [], zbuffer := none,
         sbuffer := some 5 }) ∧
    GL_DEPTH_ATTACHMENT ≠ GL_STENCIL_ATTACHMENT ∧
    (Framebuffer.new 1024 1024 1).2.attachStencilRenderbuffer 0x8D48 5 =
      ([Call.glGenRenderbuffers 1 5, Call.glBindRenderbuffer GL_RENDERBUFFER 5,
        Call.glRenderbufferStorage GL_RENDERBUFFER 0x8D48 1024 1024,
        Call.glBindFramebuffer GL_FRAMEBUFFER 1,
        Call.glFramebufferRenderbuffer GL_FRAMEBUFFER GL_STENCIL_ATTACHMENT GL_RENDERBUFFER 5],
       (Framebuffer.new 1024 1024 1).2) :=
  ⟨rfl, by decide, rfl⟩

/-! ## `Shader::operator()` -/

/-- The uniform loop within range: the `i`-th uniform of the list is updated
at location `num_attribs + i`, and the counter ends at the number of uniforms. -/
theorem uniformLoop_eq (vao : VertexArray) (h0 : 0 ≤ vao.num_attribs) :
    ∀ (us : List Uniform) (k : Nat),
      vao.num_attribs + (k : Int) + (us.length : Int) ≤ 2147483648 →
      uniformLoop vao us k =
        (((us.enumFrom k).map (fun p => p.2.update (vao.num_attribs + (p.1 : Int)))).flatten,
          k + us.length) := by
  intro us
  induction us with
  | nil => intro k _; simp [uniformLoop]
  | cons u us ih =>
    intro k hk
    simp only [List.length_cons, Nat.cast_add, Nat.cast_one] at hk
    have hk1 : (k + 1) % 4294967296 = k + 1 := by omega
    have hloc : toGLint (((toGLuint vao.num_attribs + k) % 4294967296 : Nat) : Int)
        = vao.num_attribs + (k : Int) := by
      have := toGLuint_of_nonneg vao.num_attribs h0 (by omega)
      unfold toGLint; omega
    simp only [uniformLoop, hk1, hloc, List.enumFrom_cons, List.map_cons, List.flatten_cons,
      List.length_cons]
    rw [ih (k + 1) (by push_cast; omega)]
    simp only [Prod.mk.injEq, true_and]
    omega

/-- The update of a `Uniform` with one of the four discriminants is one
transfer at the given location. -/
theorem update_uniformLocation (u : Uniform) (hu : u.typed) (loc : Int) :
    (u.update loc).filterMap Call.uniformLocation = [loc] := by
  simp only [Uniform.typed] at hu
  rcases hu with h | h | h | h <;>
    simp [Uniform.update, h, Call.uniformLocation, Uniform.TYPE_INT, Uniform.TYPE_FLOAT,
      Uniform.TYPE_VEC3, Uniform.TYPE_MAT4]

/-- The locations of the pushes of well-typed uniforms, counted from `k`. -/
theorem pushes_locations (A : Int) :
    ∀ (us : List Uniform) (k : Nat), (∀ u ∈ us, u.typed) →
      (((us.enumFrom k).map (fun p => p.2.update (A + (p.1 : Int)))).flatten).filterMap
          Call.uniformLocation
        = (List.range' k us.length).map (fun i => A + (i : Int)) := by
  intro us
  induction us with
  | nil => intro k _; simp
  | cons u us ih =>
    intro k hty
    simp only [List.enumFrom_cons, List.map_cons, List.flatten_cons, List.filterMap_append,
      List.length_cons, List.range'_succ]
    rw [update_uniformLocation u (hty u (List.mem_cons_self _ _)),
      ih (k + 1) (fun v hv => hty v (List.mem_cons_of_mem _ hv))]
    simp

/-- C2. For a vertex array with attribute count `A ≥ 0` and a list of `U`
uniforms with `A + U` within `GLint`, the calls of `Shader::operator()` are
`glUseProgram`, `glBindVertexArray`, then the updates of the uniforms in list
order, the `i`-th at location `A + i`, each uniform once, then the texture
loop.  When every uniform has one of the four discriminants, the locations
pushed to are exactly `A, A + 1, ..., A + U - 1`. -/
theorem Shader.invoke_uniform_locations (sh : Shader) (vao : VertexArray)
    (uniforms : List Uniform) (textures : List Nat)
    (h0 : 0 ≤ vao.num_attribs)
    (hfit : vao.num_attribs + (uniforms.length : Int) ≤ 2147483648) :
    (sh.invoke vao uniforms textures).1 =
      [Call.glUseProgram sh.program, Call.glBindVertexArray vao.id]
        ++ uniformPushes vao.num_attribs uniforms
        ++ textureLoop sh.tex_read_mode textures 0 uniforms.length ∧
    ((∀ u ∈ uniforms, u.typed) →
      (uniformPushes vao.num_attribs uniforms).filterMap Call.uniformLocation =
        (List.range uniforms.length).map (fun i => vao.num_attribs + (i : Int))) := by
  have hloop := uniformLoop_eq vao h0 uniforms 0 (by simpa using hfit)
  constructor
  · simp only [Shader.invoke, hloop, uniformPushes, List.enum, Nat.zero_add]
  · intro hty
    have := pushes_locations vao.num_attribs uniforms 0 hty
    simpa [uniformPushes, List.enum, List.range_eq_range'] using this

/-- C2 at a concrete input: the first invocation of `main`, on the triangle
(two attribute groups) with the two matrix uniforms and no texture; the
matrices go to locations 2 and 3. -/
theorem Shader.invoke_uniform_locations_witness :
    (0 : Int) ≤ (VertexArray.mk 1 3 2).num_attribs ∧
    (VertexArray.mk 1 3 2).num_attribs +
      (([uniformOfMat4 mat4Identity, uniformOfMat4 mat4Identity].length : Nat) : Int)
        ≤ 2147483648 ∧
    (Shader.invoke { frag := 1, vert := 2, program := 3 } (VertexArray.mk 1 3 2)
        [uniformOfMat4 mat4Identity, uniformOfMat4 mat4Identity] []).1 =
      [Call.glUseProgram 3, Call.glBindVertexArray 1,
       Call.glUniformMatrix4fv 2 1 GL_FALSE mat4Identity,
       Call.glUniformMatrix4fv 3 1 GL_FALSE mat4Identity] :=
  ⟨by decide, by decide,
   (Shader.invoke_uniform_locations { frag := 1, vert := 2, program := 3 } (VertexArray.mk 1 3 2)
      [uniformOfMat4 mat4Identity, uniformOfMat4 mat4Identity] [] (by decide) (by decide)).1⟩

/-- The sampler locations of the texture loop within range: the `i`-th texture
gets location `uloc + i`, whatever the attribute count of the vertex array. -/
theorem textureLoop_locations (mode : TextureReadMode) :
    ∀ (ts : List Nat) (tunit uloc : Nat),
      tunit + ts.length ≤ 2147483648 → uloc + ts.length ≤ 2147483648 →
      (textureLoop mode ts tunit uloc).filterMap Call.uniformLocation =
        (List.range' uloc ts.length).map (fun i => (i : Int)) := by
  intro ts
  induction ts with
  | nil => intro tunit uloc _ _; simp [textureLoop]
  | cons t ts ih =>
    intro tunit uloc ht hu
    simp only [List.length_cons] at ht hu
    have h1 : (tunit + 1) % 4294967296 = tunit + 1 := by omega
    have h2 : (uloc + 1) % 4294967296 = uloc + 1 := by omega
    have h3 : toGLint (uloc : Int) = (uloc : Int) := toGLint_of_range _ (by omega) (by omega)
    simp only [textureLoop, h1, h2, h3, List.filterMap_append, List.filterMap_cons,
      List.filterMap_nil, Call.uniformLocation, List.length_cons, List.range'_succ,
      List.map_cons]
    rw [ih (tunit + 1) (uloc + 1) (by omega) (by omega)]
    simp

/-- C1, the code at the failing input: the second invocation of `main`, on the
quad (attribute count 2) with no uniform and one texture.  The texture is bound
to unit 0 and the sampler uniform is pushed at location 0, not at location
`2 + 0 + 0`. -/
theorem Shader.invoke_sampler_location_quad :
    ∃ calls quad, VertexArray.new quadVertices 2 2 = some (calls, quad) ∧
      quad.num_attribs = 2 ∧
      (Shader.invoke { frag := 4, vert := 5, program := 6 } quad [] [7]).1 =
        [Call.glUseProgram 6, Call.glBindVertexArray 2,
         Call.glActiveTexture GL_TEXTURE0, Call.glBindTexture GL_TEXTURE_2D 7,
         Call.glTexParameteri GL_TEXTURE_2D GL_TEXTURE_MIN_FILTER GL_LINEAR,
         Call.glTexParameteri GL_TEXTURE_2D GL_TEXTURE_MAG_FILTER GL_LINEAR,
         Call.glTexParameteri GL_TEXTURE_2D GL_TEXTURE_WRAP_S GL_REPEAT,
         Call.glTexParameteri GL_TEXTURE_2D GL_TEXTURE_WRAP_T GL_REPEAT,
         Call.glUniform1i 0 0] ∧
      Call.glUniform1i (2 + 0 + 0) 0 ∉
        (Shader.invoke { frag := 4, vert := 5, program := 6 } quad [] [7]).1 :=
  ⟨_, _, rfl, rfl, rfl, by decide⟩

/-- The update of a `Uniform` issues no draw call. -/
theorem update_no_draw (u : Uniform) (loc : Int) : ∀ c ∈ u.update loc, c.isDraw = false := by
  intro c hc
  unfold Uniform.update at hc
  split_ifs at hc <;> simp at hc <;> subst hc <;> rfl

/-- The uniform loop issues no draw call. -/
theorem uniformLoop_no_draw (vao : VertexArray) :
    ∀ (us : List Uniform) (k : Nat), ∀ c ∈ (uniformLoop vao us k).1, c.isDraw = false := by
  intro us
  induction us with
  | nil => intro k c hc; simp [uniformLoop] at hc
  | cons u us ih =>
    intro k c hc
    simp only [uniformLoop, List.mem_append] at hc
    rcases hc with hc | hc
    · exact update_no_draw _ _ c hc
    · exact ih _ c hc

/-- The texture loop issues no draw call. -/
theorem textureLoop_no_draw (mode : TextureReadMode) :
    ∀ (ts : List Nat) (tunit uloc : Nat), ∀ c ∈ textureLoop mode ts tunit uloc,
      c.isDraw = false := by
  intro ts
  induction ts with
  | nil => intro tunit uloc c hc; simp [textureLoop] at hc
  | cons t ts ih =>
    intro tunit uloc c hc
    simp only [textureLoop, List.mem_append, List.mem_cons, List.mem_singleton,
      List.not_mem_nil, or_false] at hc
    rcases hc with (hc | hc | hc | hc | hc | hc | hc) | hc
    all_goals first | (subst hc; rfl) | exact ih _ _ c hc

/-- The invocation issues no draw call. -/
theorem Shader.invoke_no_draw (sh : Shader) (vao : VertexArray) (us : List Uniform)
    (ts : List Nat) : ∀ c ∈ (sh.invoke vao us ts).1, c.isDraw = false := by
  intro c hc
  simp only [Shader.invoke, List.mem_append, List.mem_cons, List.mem_singleton,
    List.not_mem_nil, or_false] at hc
  rcases hc with ((hc | hc) | hc) | hc
  · subst hc; rfl
  · subst hc; rfl
  · exact uniformLoop_no_draw vao us 0 c hc
  · exact textureLoop_no_draw _ ts _ _ c hc

/-- Invocations leave the primitive kind of the shader as it is. -/
theorem Shader.afterInvocations_primitive
    (history : List (VertexArray × List Uniform × List Nat)) :
    ∀ sh : Shader,
      (sh.afterInvocations history).execution.primitive = sh.execution.primitive := by
  induction history with
  | nil => intro sh; rfl
  | cons a rest ih =>
    intro sh
    simp only [Shader.afterInvocations, List.foldl_cons] at ih ⊢
    rw [ih]
    rfl

/-- A shader the constructor returns has the primitive kind `GL_TRIANGLES`. -/
theorem Shader.new_primitive {name dir : String} {frag vert : Nat}
    {frag_file vert_file : Option String} {fc vc : Int} {fl vl : String} {program : Nat}
    {calls : List Call} {sh : Shader}
    (h : Shader.new name dir frag vert frag_file vert_file fc vc fl vl program
      = Run.ret calls sh) :
    sh.execution.primitive = GL_TRIANGLES := by
  unfold Shader.new readFile at h
  cases frag_file with
  | none => simp at h
  | some fs =>
    cases vert_file with
    | none => simp at h
    | some vs =>
      simp only [] at h
      split_ifs at h
      cases h
      rfl

/-- The constructor of `VertexArray` on `1 ≤ N < 2^31` vertices returns, with
`size = N`. -/
theorem VertexArray.new_size (vertices : List (List (List GLfloat))) (id buffer : Nat)
    (hne : vertices ≠ []) (hN : vertices.length < 2147483648) :
    ∃ calls vao, VertexArray.new vertices id buffer = some (calls, vao) ∧
      vao.size = vertices.length ∧ vao.id = id := by
  cases vertices with
  | nil => exact absurd rfl hne
  | cons v0 vs =>
    have hsz : toGLint ((v0 :: vs).length : Nat) = ((v0 :: vs).length : Nat) :=
      toGLint_of_range _ (by omega) (by omega)
    have hnz : ¬ (toGLint ((v0 :: vs).length : Nat) = 0 ∧ v0 ≠ []) := by
      rw [hsz]; simp only [List.length_cons]; omega
    simp only [VertexArray.new, if_neg hnz]
    exact ⟨_, _, rfl, hsz, rfl⟩

/-- C8. Take a shader as its constructor returns it, after any earlier
invocations, and a vertex array constructed from `1 ≤ N < 2^31` vertices.  For
every uniform list and texture list the invocation issues no draw call and
returns the draw intent with vertex count `N` and primitive `GL_TRIANGLES`;
executing that intent against the complete on-screen target issues exactly one
draw call, `glDrawArrays(GL_TRIANGLES, 0, N)`. -/
theorem Shader.invoke_draw_intent (name dir : String) (frag vert : Nat)
    (frag_source vert_source frag_log vert_log : String) (program : Nat)
    (calls0 : List Call) (sh0 : Shader)
    (history : List (VertexArray × List Uniform × List Nat))
    (vertices : List (List (List GLfloat))) (id buffer : Nat)
    (uniforms : List Uniform) (textures : List Nat)
    (hnew : Shader.new name dir frag vert (some frag_source) (some vert_source)
      GL_TRUE GL_TRUE frag_log vert_log program = Run.ret calls0 sh0)
    (hne : vertices ≠ []) (hN : vertices.length < 2147483648) :
    ∃ calls vao, VertexArray.new vertices id buffer = some (calls, vao) ∧
      (∀ c ∈ ((sh0.afterInvocations history).invoke vao uniforms textures).1,
        c.isDraw = false) ∧
      ((sh0.afterInvocations history).invoke vao uniforms textures).2.2 =
        { nvertices := vertices.length, primitive := GL_TRIANGLES } ∧
      (Framebuffer.default.2.execute GL_FRAMEBUFFER_COMPLETE
          ((sh0.afterInvocations history).invoke vao uniforms textures).2.2).calls.filter
          Call.isDraw = [Call.glDrawArrays GL_TRIANGLES 0 vertices.length] := by
  obtain ⟨calls, vao, hvao, hsize, -⟩ := VertexArray.new_size vertices id buffer hne hN
  have hprim : (sh0.afterInvocations history).execution.primitive = GL_TRIANGLES := by
    rw [Shader.afterInvocations_primitive]; exact Shader.new_primitive hnew
  have hintent : ((sh0.afterInvocations history).invoke vao uniforms textures).2.2 =
      { nvertices := vertices.length, primitive := GL_TRIANGLES } := by
    simp only [Shader.invoke, hsize, hprim]
  refine ⟨calls, vao, hvao, Shader.invoke_no_draw _ _ _ _, hintent, ?_⟩
  rw [hintent]
  rfl

/-- C8 at the input of `main`: the shader `writeDepth` invoked on the
three-vertex triangle with two matrix uniforms yields the intent
`(3, GL_TRIANGLES)`, and executing it on the on-screen target issues the one
draw call `glDrawArrays(GL_TRIANGLES, 0, 3)`. -/
theorem Shader.invoke_draw_intent_witness :
    ∃ calls vao, VertexArray.new triangleVertices 1 1 = some (calls, vao) ∧
      (∀ c ∈ (((Shader.mk 1 2 3 {} {}).afterInvocations []).invoke vao
          [uniformOfMat4 mat4Identity, uniformOfMat4 mat4Identity] []).1, c.isDraw = false) ∧
      (((Shader.mk 1 2 3 {} {}).afterInvocations []).invoke vao
          [uniformOfMat4 mat4Identity, uniformOfMat4 mat4Identity] []).2.2 =
        { nvertices := (3 : Nat), primitive := GL_TRIANGLES } ∧
      (Framebuffer.default.2.execute GL_FRAMEBUFFER_COMPLETE
          (((Shader.mk 1 2 3 {} {}).afterInvocations []).invoke vao
            [uniformOfMat4 mat4Identity, uniformOfMat4 mat4Identity] []).2.2).calls.filter
          Call.isDraw = [Call.glDrawArrays GL_TRIANGLES 0 (3 : Nat)] :=
  Shader.invoke_draw_intent "writeDepth" "." 1 2 "" "" "" "" 3 _ (Shader.mk 1 2 3 {} {}) []
    triangleVertices 1 1 [uniformOfMat4 mat4Identity, uniformOfMat4 mat4Identity] []
    rfl (by decide) (by decide)

/-! ## The constructor of `VertexArray` -/

/-- The inner byte count adds four bytes for every float of the vertex. -/
theorem countGroups_eq : ∀ (gs : List (List GLfloat)) (bytes : Int),
    countGroups gs bytes = bytes + ((4 * (gs.map List.length).sum : Nat) : Int) := by
  intro gs
  induction gs with
  | nil => intro bytes; simp [countGroups]
  | cons g gs ih =>
    intro bytes
    simp only [countGroups, ih, List.map_cons, List.sum_cons, sizeofGLfloat]
    push_cast; ring

/-- The byte count of `N` vertices of shape `cs` is `N * 4 * sum cs`. -/
theorem countBytes_eq (cs : List Nat) : ∀ (vs : List (List (List GLfloat))) (bytes : Int),
    (∀ v ∈ vs, v.map List.length = cs) →
    countBytes vs bytes = bytes + ((vs.length * (4 * cs.sum) : Nat) : Int) := by
  intro vs
  induction vs with
  | nil => intro bytes _; simp [countBytes]
  | cons v vs ih =>
    intro bytes h
    have hv : v.map List.length = cs := h v (List.mem_cons_self _ _)
    simp only [countBytes, countGroups_eq, hv, List.length_cons]
    rw [ih _ (fun w hw => h w (List.mem_cons_of_mem _ hw))]
    push_cast; ring

/-- The layout loop within range declares group after group: index `i`, the component
count of the group, the stride, and the running byte offset. -/
theorem declareAttribs_layout (bytes size : Int) :
    ∀ (gs : List (List GLfloat)) (i : Nat) (offset : Int),
      i + gs.length < 4294967296 → (∀ g ∈ gs, g.length < 2147483648) →
      declaredLayout (declareAttribs bytes size gs i offset) =
        layoutFrom (toGLint (Int.tdiv bytes size)) (gs.map List.length) i offset := by
  intro gs
  induction gs with
  | nil => intro i offset _ _; rfl
  | cons g gs ih =>
    intro i offset hi hg
    simp only [List.length_cons] at hi
    have hlen : toGLint (g.length : Int) = (g.length : Int) :=
      toGLint_of_range _ (by omega) (by have := hg g (List.mem_cons_self _ _); omega)
    have hi1 : (i + 1) % 4294967296 = i + 1 := by omega
    have ih' := ih (i + 1) (offset + ((4 * g.length : Nat) : Int)) (by omega)
      (fun g' hg' => hg g' (List.mem_cons_of_mem _ hg'))
    simp only [declaredLayout] at ih' ⊢
    simp only [declareAttribs, List.filterMap_cons, Call.attribPointer, List.map_cons,
      layoutFrom, hlen, hi1, sizeofGLfloat, Nat.mul_comm g.length 4, ih']

/-- Entry `k` of the layout: index `i + k`, component count `cs[k]`, and the byte
size of the groups before it as offset. -/
theorem layoutFrom_getElem (stride : Int) :
    ∀ (cs : List Nat) (i : Nat) (offset : Int) (k : Nat) (c : Nat), cs[k]? = some c →
      (layoutFrom stride cs i offset)[k]? =
        some (i + k, (c : Int), stride, offset + ((4 * (cs.take k).sum : Nat) : Int)) := by
  intro cs
  induction cs with
  | nil => intro i offset k c h; simp at h
  | cons c0 cs ih =>
    intro i offset k c h
    cases k with
    | zero =>
      simp only [List.getElem?_cons_zero, Option.some.injEq] at h
      subst h
      simp [layoutFrom]
    | succ k =>
      simp only [List.getElem?_cons_succ] at h
      simp only [layoutFrom, List.getElem?_cons_succ, ih (i + 1) _ k c h, List.take_succ_cons,
        List.sum_cons, Option.some.injEq, Prod.mk.injEq, true_and]
      constructor
      · omega
      · push_cast; ring

/-- The layout has one entry for every group. -/
theorem layoutFrom_length (stride : Int) :
    ∀ (cs : List Nat) (i : Nat) (offset : Int), (layoutFrom stride cs i offset).length = cs.length := by
  intro cs
  induction cs with
  | nil => intro i offset; rfl
  | cons c cs ih => intro i offset; simp [layoutFrom, ih]

/-- The declared layout of two lists of calls, one after the other. -/
theorem declaredLayout_append (a b : List Call) :
    declaredLayout (a ++ b) = declaredLayout a ++ declaredLayout b := by
  simp [declaredLayout, List.filterMap_append]

/-- The inner upload loop declares no layout. -/
theorem uploadGroups_layout : ∀ (gs : List (List GLfloat)) (offset : Int),
    declaredLayout (uploadGroups gs offset).1 = [] := by
  intro gs
  induction gs with
  | nil => intro offset; rfl
  | cons g gs ih =>
    intro offset
    have := ih (offset + toGLint ((g.length * sizeofGLfloat : Nat) : Int))
    simp only [declaredLayout] at this ⊢
    simp only [uploadGroups, List.filterMap_cons, Call.attribPointer, this]

/-- The upload declares no layout. -/
theorem uploadVertices_layout : ∀ (vs : List (List (List GLfloat))) (offset : Int),
    declaredLayout (uploadVertices vs offset).1 = [] := by
  intro vs
  induction vs with
  | nil => intro offset; rfl
  | cons v vs ih =>
    intro offset
    simp [uploadVertices, declaredLayout_append, uploadGroups_layout, ih]

/-- What the constructor does on `N ≥ 1` vertices of one shape `cs`, within the
32-bit ranges: it returns, after `glBufferData` for `N * 4 * sum cs` bytes, the
upload and the layout declaration with stride `4 * sum cs`. -/
theorem VertexArray.new_uniform (vertices : List (List (List GLfloat))) (id buffer : Nat)
    (cs : List Nat) (hne : vertices ≠ [])
    (hshape : ∀ v ∈ vertices, v.map List.length = cs)
    (hN : vertices.length < 2147483648) (hK : cs.length < 2147483648)
    (hbytes : vertices.length * (4 * cs.sum) < 2147483648) :
    ∃ v0, vertices.head? = some v0 ∧
    VertexArray.new vertices id buffer =
      some ([Call.glGenVertexArrays 1 id, Call.glBindVertexArray id,
          Call.glGenBuffers 1 buffer, Call.glBindBuffer GL_ARRAY_BUFFER buffer,
          Call.glBufferData GL_ARRAY_BUFFER ((vertices.length * (4 * cs.sum) : Nat) : Int)
            none GL_STATIC_DRAW]
          ++ (uploadVertices vertices 0).1
          ++ declareAttribs ((vertices.length * (4 * cs.sum) : Nat) : Int)
              (vertices.length : Int) v0 0 0,
        { id := id, size := vertices.length, num_attribs := cs.length }) := by
  cases vertices with
  | nil => exact absurd rfl hne
  | cons v0 vs =>
    have hv0 : v0.map List.length = cs := hshape v0 (List.mem_cons_self _ _)
    have hlen0 : v0.length = cs.length := by rw [← hv0, List.length_map]
    have hsz : toGLint (((v0 :: vs).length : Nat) : Int) = (((v0 :: vs).length : Nat) : Int) :=
      toGLint_of_range _ (by omega) (by omega)
    have hna : toGLint ((v0.length : Nat) : Int) = ((cs.length : Nat) : Int) := by
      rw [hlen0]; exact toGLint_of_range _ (by omega) (by omega)
    have hnz : ¬ ((((v0 :: vs).length : Nat) : Int) = 0 ∧ v0 ≠ []) := by
      simp only [List.length_cons]; omega
    have hb := countBytes_eq cs (v0 :: vs) 0 hshape
    refine ⟨v0, rfl, ?_⟩
    simp only [VertexArray.new, hb, hsz, hna, zero_add, if_neg hnz]

/-- A member of a list of naturals is at most the sum of the list. -/
theorem mem_le_sum : ∀ (cs : List Nat) (c : Nat), c ∈ cs → c ≤ cs.sum := by
  intro cs
  induction cs with
  | nil => intro c h; simp at h
  | cons c0 cs ih =>
    intro c h
    simp only [List.mem_cons] at h
    simp only [List.sum_cons]
    rcases h with h | h
    · omega
    · have := ih c h; omega

/-- The entries before index `i` and entry `i` together are at most the sum. -/
theorem take_sum_add_le : ∀ (cs : List Nat) (i c : Nat), cs[i]? = some c →
    (cs.take i).sum + c ≤ cs.sum := by
  intro cs
  induction cs with
  | nil => intro i c h; simp at h
  | cons c0 cs ih =>
    intro i c h
    cases i with
    | zero =>
      simp only [List.getElem?_cons_zero, Option.some.injEq] at h
      simp only [List.take_zero, List.sum_nil, List.sum_cons]; omega
    | succ i =>
      simp only [List.getElem?_cons_succ] at h
      have := ih i c h
      simp only [List.take_succ_cons, List.sum_cons]; omega

/-- The layout loop leaves the data store as it is. -/
theorem declareAttribs_store (bytes size : Int) :
    ∀ (gs : List (List GLfloat)) (i : Nat) (offset : Int) (m : Int → Option GLfloat),
      List.foldl Call.store m (declareAttribs bytes size gs i offset) = m := by
  intro gs
  induction gs with
  | nil => intro i offset m; rfl
  | cons g gs ih =>
    intro i offset m
    simp only [declareAttribs, List.foldl_cons, Call.store, ih]

/-- The layout loop writes no byte range. -/
theorem declareAttribs_writes (bytes size : Int) :
    ∀ (gs : List (List GLfloat)) (i : Nat) (offset : Int),
      subDataWrites (declareAttribs bytes size gs i offset) = [] := by
  intro gs
  induction gs with
  | nil => intro i offset; rfl
  | cons g gs ih =>
    intro i offset
    have := ih ((i + 1) % 4294967296) (offset + ((g.length * sizeofGLfloat : Nat) : Int))
    simp only [subDataWrites] at this ⊢
    simp only [declareAttribs, List.filterMap_cons, Call.subData, this]

/-- The calls of the constructor on vertices of one shape, seen three ways: the
store and the writes are those of the upload, and the declared layout is the
layout of the shape with stride `4 * sum cs`. -/
theorem VertexArray.new_declaredLayout (vertices : List (List (List GLfloat))) (id buffer : Nat)
    (cs : List Nat) (hne : vertices ≠ [])
    (hshape : ∀ v ∈ vertices, v.map List.length = cs)
    (hN : vertices.length < 2147483648) (hK : cs.length < 2147483648)
    (hbytes : vertices.length * (4 * cs.sum) < 2147483648) :
    ∃ calls vao, VertexArray.new vertices id buffer = some (calls, vao) ∧
      Call.glBufferData GL_ARRAY_BUFFER ((vertices.length * (4 * cs.sum) : Nat) : Int)
        none GL_STATIC_DRAW ∈ calls ∧
      List.foldl Call.store (fun _ => none) calls =
        List.foldl Call.store (fun _ => none) (uploadVertices vertices 0).1 ∧
      subDataWrites calls = subDataWrites (uploadVertices vertices 0).1 ∧
      declaredLayout calls = layoutFrom ((4 * cs.sum : Nat) : Int) cs 0 0 := by
  obtain ⟨v0, hhead, hnew⟩ :=
    VertexArray.new_uniform vertices id buffer cs hne hshape hN hK hbytes
  have hv0mem : v0 ∈ vertices := by
    cases vertices with
    | nil => simp at hhead
    | cons w ws =>
      simp only [List.head?_cons, Option.some.injEq] at hhead
      subst hhead; exact List.mem_cons_self _ _
  have hv0 : v0.map List.length = cs := hshape v0 hv0mem
  have hlen0 : v0.length = cs.length := by rw [← hv0, List.length_map]
  have hpos : 0 < vertices.length := List.length_pos.mpr hne
  have hS : 4 * cs.sum < 2147483648 := by
    calc 4 * cs.sum = 1 * (4 * cs.sum) := (Nat.one_mul _).symm
      _ ≤ vertices.length * (4 * cs.sum) := Nat.mul_le_mul_right _ hpos
      _ < 2147483648 := hbytes
  have hstride : toGLint (Int.tdiv ((vertices.length * (4 * cs.sum) : Nat) : Int)
      (vertices.length : Int)) = ((4 * cs.sum : Nat) : Int) := by
    have hne0 : (vertices.length : Int) ≠ 0 := by omega
    rw [Nat.cast_mul, Int.mul_tdiv_cancel_left _ hne0]
    exact toGLint_of_range _ (by omega) (by omega)
  have hg : ∀ g ∈ v0, g.length < 2147483648 := by
    intro g hgm
    have h1 : g.length ∈ cs := by rw [← hv0]; exact List.mem_map_of_mem _ hgm
    have := mem_le_sum cs _ h1
    omega
  refine ⟨_, _, hnew, ?_, ?_, ?_, ?_⟩
  · simp
  · simp only [List.foldl_append, declareAttribs_store, List.foldl_cons, List.foldl_nil,
      Call.store]
  · simp only [subDataWrites, List.filterMap_append, List.filterMap_cons, List.filterMap_nil,
      Call.subData, List.nil_append]
    have := declareAttribs_writes ((vertices.length * (4 * cs.sum) : Nat) : Int)
      (vertices.length : Int) v0 0 0
    simp only [subDataWrites] at this
    rw [this, List.append_nil]
  · rw [declaredLayout_append, declaredLayout_append, uploadVertices_layout,
      declareAttribs_layout _ _ v0 0 0 (by omega) hg, hstride, hv0]
    simp [declaredLayout, Call.attribPointer]

/-- C3. For a `VertexArray` constructed from `N ≥ 1` vertices that all have the
same `K` groups with component counts `cs = [c_0, ..., c_(K-1)]`, all sizes
within the 32-bit types of the source: the buffer is allocated with
`N * 4 * (c_0 + ... + c_(K-1))` bytes, exactly `K` calls of
`glVertexAttribPointer` are issued, and the `i`-th declares location `i` with
component count `c_i`, stride `4 * (c_0 + ... + c_(K-1))` (the total byte size
divided by `N`) and byte offset `4 * (c_0 + ... + c_(i-1))`. -/
theorem VertexArray.new_stride_and_offsets (vertices : List (List (List GLfloat)))
    (id buffer : Nat) (cs : List Nat) (hne : vertices ≠ [])
    (hshape : ∀ v ∈ vertices, v.map List.length = cs)
    (hN : vertices.length < 2147483648) (hK : cs.length < 2147483648)
    (hbytes : vertices.length * (4 * cs.sum) < 2147483648) :
    ∃ calls vao, VertexArray.new vertices id buffer = some (calls, vao) ∧
      Call.glBufferData GL_ARRAY_BUFFER ((vertices.length * (4 * cs.sum) : Nat) : Int)
        none GL_STATIC_DRAW ∈ calls ∧
      (declaredLayout calls).length = cs.length ∧
      ∀ (i c : Nat), cs[i]? = some c →
        (declaredLayout calls)[i]? =
          some (i, (c : Int), ((4 * cs.sum : Nat) : Int), ((4 * (cs.take i).sum : Nat) : Int)) := by
  obtain ⟨calls, vao, hnew, hdata, -, -, hlay⟩ :=
    VertexArray.new_declaredLayout vertices id buffer cs hne hshape hN hK hbytes
  refine ⟨calls, vao, hnew, hdata, ?_, ?_⟩
  · rw [hlay, layoutFrom_length]
  · intro i c hc
    rw [hlay, layoutFrom_getElem _ cs 0 0 i c hc]
    simp

/-! ### The upload loops -/

/-- Covering writes of two lists of writes add up. -/
theorem coverCount_append (a b : List (Int × Int)) (x : Int) :
    coverCount (a ++ b) x = coverCount a x + coverCount b x := by
  simp [coverCount, List.filter_append]

/-- The writes of two lists of calls, one after the other. -/
theorem subDataWrites_append (a b : List Call) :
    subDataWrites (a ++ b) = subDataWrites a ++ subDataWrites b := by
  simp [subDataWrites, List.filterMap_append]

/-- The inner upload loop advances `offset` by the byte size of the vertex. -/
theorem uploadGroups_snd : ∀ (gs : List (List GLfloat)) (offset : Int),
    4 * (gs.map List.length).sum < 2147483648 →
    (uploadGroups gs offset).2 = offset + ((4 * (gs.map List.length).sum : Nat) : Int) := by
  intro gs
  induction gs with
  | nil => intro offset _; simp [uploadGroups]
  | cons g gs ih =>
    intro offset h
    simp only [List.map_cons, List.sum_cons] at h
    have hn : toGLint ((g.length * sizeofGLfloat : Nat) : Int) = ((4 * g.length : Nat) : Int) := by
      rw [sizeofGLfloat, Nat.mul_comm]
      exact toGLint_of_range _ (by omega) (by omega)
    simp only [uploadGroups, hn, List.map_cons, List.sum_cons]
    rw [ih _ (by omega)]
    push_cast; ring

/-- The writes of one vertex cover each byte of its range once, and no other byte. -/
theorem uploadGroups_cover : ∀ (gs : List (List GLfloat)) (offset x : Int),
    4 * (gs.map List.length).sum < 2147483648 →
    coverCount (subDataWrites (uploadGroups gs offset).1) x =
      if offset ≤ x ∧ x < offset + ((4 * (gs.map List.length).sum : Nat) : Int) then 1 else 0 := by
  intro gs
  induction gs with
  | nil =>
    intro offset x _
    have : ¬ (offset ≤ x ∧ x < offset + ((4 * (([] : List (List GLfloat)).map List.length).sum
        : Nat) : Int)) := by simp
    rw [if_neg this]; rfl
  | cons g gs ih =>
    intro offset x h
    simp only [List.map_cons, List.sum_cons] at h
    have hn : toGLint ((g.length * sizeofGLfloat : Nat) : Int) = ((4 * g.length : Nat) : Int) := by
      rw [sizeofGLfloat, Nat.mul_comm]
      exact toGLint_of_range _ (by omega) (by omega)
    have hih := ih (offset + ((4 * g.length : Nat) : Int)) x (by omega)
    simp only [subDataWrites, coverCount] at hih ⊢
    simp only [uploadGroups, hn, List.filterMap_cons, Call.subData, List.filter_cons,
      List.map_cons, List.sum_cons]
    by_cases h1 : offset ≤ x ∧ x < offset + ((4 * g.length : Nat) : Int)
    · rw [decide_eq_true h1]
      simp only [if_true, List.length_cons, hih]
      split_ifs <;> omega
    · rw [decide_eq_false h1]
      simp only [Bool.false_eq_true, if_false, hih]
      split_ifs <;> omega

/-- The upload of `N` vertices of shape `cs` advances `offset` by `N * 4 * sum cs`. -/
theorem uploadVertices_snd (cs : List Nat) (hS : 4 * cs.sum < 2147483648) :
    ∀ (vs : List (List (List GLfloat))) (offset : Int),
      (∀ v ∈ vs, v.map List.length = cs) →
      (uploadVertices vs offset).2 = offset + ((vs.length * (4 * cs.sum) : Nat) : Int) := by
  intro vs
  induction vs with
  | nil => intro offset _; simp [uploadVertices]
  | cons v vs ih =>
    intro offset h
    have hv := h v (List.mem_cons_self _ _)
    simp only [uploadVertices, List.length_cons]
    rw [ih _ (fun w hw => h w (List.mem_cons_of_mem _ hw)),
      uploadGroups_snd v offset (by rw [hv]; exact hS), hv]
    push_cast; ring

/-- The writes of `N` vertices of shape `cs` from `offset` cover each byte of
`[offset, offset + N * 4 * sum cs)` once, and no other byte. -/
theorem uploadVertices_cover (cs : List Nat) (hS : 4 * cs.sum < 2147483648) :
    ∀ (vs : List (List (List GLfloat))) (offset x : Int),
      (∀ v ∈ vs, v.map List.length = cs) →
      coverCount (subDataWrites (uploadVertices vs offset).1) x =
        if offset ≤ x ∧ x < offset + ((vs.length * (4 * cs.sum) : Nat) : Int) then 1 else 0 := by
  intro vs
  induction vs with
  | nil =>
    intro offset x _
    have : ¬ (offset ≤ x ∧ x < offset + (((([] : List (List (List GLfloat))).length *
        (4 * cs.sum) : Nat)) : Int)) := by simp
    rw [if_neg this]; rfl
  | cons v vs ih =>
    intro offset x h
    have hv := h v (List.mem_cons_self _ _)
    have h1 := uploadGroups_cover v offset x (by rw [hv]; exact hS)
    have h2 := uploadGroups_snd v offset (by rw [hv]; exact hS)
    rw [hv] at h1 h2
    have h3 := ih (offset + ((4 * cs.sum : Nat) : Int)) x
      (fun w hw => h w (List.mem_cons_of_mem _ hw))
    have e : (vs.length + 1) * (4 * cs.sum) = vs.length * (4 * cs.sum) + 4 * cs.sum := by
      ring
    simp only [uploadVertices, subDataWrites_append, coverCount_append, h1, h2, h3,
      List.length_cons, e]
    generalize vs.length * (4 * cs.sum) = A
    generalize cs.sum = S
    split_ifs <;> omega

/-- The upload of one vertex from `offset` leaves the store below `offset` as it is. -/
theorem uploadGroups_frame : ∀ (gs : List (List GLfloat)) (offset : Int)
    (m : Int → Option GLfloat) (x : Int),
    4 * (gs.map List.length).sum < 2147483648 → x < offset →
    List.foldl Call.store m (uploadGroups gs offset).1 x = m x := by
  intro gs
  induction gs with
  | nil => intro offset m x _ _; rfl
  | cons g gs ih =>
    intro offset m x h hx
    simp only [List.map_cons, List.sum_cons] at h
    have hn : toGLint ((g.length * sizeofGLfloat : Nat) : Int) = ((4 * g.length : Nat) : Int) := by
      rw [sizeofGLfloat, Nat.mul_comm]
      exact toGLint_of_range _ (by omega) (by omega)
    simp only [uploadGroups, hn, List.foldl_cons]
    rw [ih _ _ x (by omega) (by omega)]
    simp only [Call.store]
    rw [if_neg (by omega)]

/-- After the upload of one vertex from `offset`, component `c` of group `i` is
stored at `offset` plus the byte size of the groups before it plus `4 * c`. -/
theorem uploadGroups_read : ∀ (gs : List (List GLfloat)) (offset : Int)
    (m : Int → Option GLfloat) (i : Nat) (g : List GLfloat) (c : Nat) (a : GLfloat),
    4 * (gs.map List.length).sum < 2147483648 → gs[i]? = some g → g[c]? = some a →
    List.foldl Call.store m (uploadGroups gs offset).1
      (offset + ((4 * ((gs.map List.length).take i).sum : Nat) : Int) + 4 * (c : Int)) = some a := by
  intro gs
  induction gs with
  | nil => intro offset m i g c a _ hg _; simp at hg
  | cons g0 gs ih =>
    intro offset m i g c a h hg hc
    simp only [List.map_cons, List.sum_cons] at h
    have hn : toGLint ((g0.length * sizeofGLfloat : Nat) : Int) = ((4 * g0.length : Nat) : Int) := by
      rw [sizeofGLfloat, Nat.mul_comm]
      exact toGLint_of_range _ (by omega) (by omega)
    simp only [uploadGroups, hn, List.foldl_cons]
    cases i with
    | zero =>
      simp only [List.getElem?_cons_zero, Option.some.injEq] at hg
      subst hg
      have hclt : c < g0.length := by
        rcases List.getElem?_eq_some.mp hc with ⟨hlt, -⟩; exact hlt
      simp only [List.take_zero, List.sum_nil, Nat.mul_zero, Nat.cast_zero, add_zero]
      rw [uploadGroups_frame gs _ _ _ (by omega) (by omega)]
      simp only [Call.store]
      rw [if_pos (by omega)]
      have : ((offset + 4 * (c : Int) - offset) / 4).toNat = c := by omega
      rw [this]; exact hc
    | succ i =>
      simp only [List.getElem?_cons_succ] at hg
      have := ih (offset + ((4 * g0.length : Nat) : Int)) (Call.store m
        (Call.glBufferSubData GL_ARRAY_BUFFER offset ((4 * g0.length : Nat) : Int) g0)) i g c a
        (by omega) hg hc
      have e : offset + ((4 * (((g0 :: gs).map List.length).take (i + 1)).sum : Nat) : Int)
            + 4 * (c : Int)
          = offset + ((4 * g0.length : Nat) : Int)
            + ((4 * ((gs.map List.length).take i).sum : Nat) : Int) + 4 * (c : Int) := by
        simp only [List.map_cons, List.take_succ_cons, List.sum_cons]
        push_cast; ring
      rw [e]; exact this

/-- The upload from `offset` leaves the store below `offset` as it is. -/
theorem uploadVertices_frame (cs : List Nat) (hS : 4 * cs.sum < 2147483648) :
    ∀ (vs : List (List (List GLfloat))) (offset : Int) (m : Int → Option GLfloat) (x : Int),
      (∀ v ∈ vs, v.map List.length = cs) → x < offset →
      List.foldl Call.store m (uploadVertices vs offset).1 x = m x := by
  intro vs
  induction vs with
  | nil => intro offset m x _ _; rfl
  | cons v vs ih =>
    intro offset m x h hx
    have hv := h v (List.mem_cons_self _ _)
    have h2 := uploadGroups_snd v offset (by rw [hv]; exact hS)
    simp only [uploadVertices, List.foldl_append]
    rw [ih _ _ x (fun w hw => h w (List.mem_cons_of_mem _ hw)) (by rw [h2]; omega)]
    exact uploadGroups_frame v offset m x (by rw [hv]; exact hS) hx

/-- After the upload of vertices of shape `cs` from `offset`, component `c` of
group `i` of vertex `v` is stored at
`offset + v * (4 * sum cs) + 4 * sum (take i cs) + 4 * c`. -/
theorem uploadVertices_read (cs : List Nat) (hS : 4 * cs.sum < 2147483648) :
    ∀ (vs : List (List (List GLfloat))) (offset : Int) (m : Int → Option GLfloat)
      (v : Nat) (vert : List (List GLfloat)) (i : Nat) (g : List GLfloat) (c : Nat) (a : GLfloat),
      (∀ w ∈ vs, w.map List.length = cs) →
      vs[v]? = some vert → vert[i]? = some g → g[c]? = some a →
      List.foldl Call.store m (uploadVertices vs offset).1
        (offset + (v : Int) * ((4 * cs.sum : Nat) : Int)
          + ((4 * (cs.take i).sum : Nat) : Int) + 4 * (c : Int)) = some a := by
  intro vs
  induction vs with
  | nil => intro offset m v vert i g c a _ hv _ _; simp at hv
  | cons v0 vs ih =>
    intro offset m v vert i g c a h hv hg hc
    have hv0 := h v0 (List.mem_cons_self _ _)
    have h2 := uploadGroups_snd v0 offset (by rw [hv0]; exact hS)
    rw [hv0] at h2
    simp only [uploadVertices, List.foldl_append]
    cases v with
    | zero =>
      simp only [List.getElem?_cons_zero, Option.some.injEq] at hv
      subst hv
      have hclt : c < g.length := by
        rcases List.getElem?_eq_some.mp hc with ⟨hlt, -⟩; exact hlt
      have hci : cs[i]? = some g.length := by
        rw [← hv0, List.getElem?_map, hg]; rfl
      have hle := take_sum_add_le cs i g.length hci
      have e : offset + ((0 : Nat) : Int) * ((4 * cs.sum : Nat) : Int)
            + ((4 * (cs.take i).sum : Nat) : Int) + 4 * (c : Int)
          = offset + ((4 * (cs.take i).sum : Nat) : Int) + 4 * (c : Int) := by
        simp
      rw [e, uploadVertices_frame cs hS vs _ _ _ (fun w hw => h w (List.mem_cons_of_mem _ hw))
        (by rw [h2]; omega)]
      have := uploadGroups_read v0 offset m i g c a (by rw [hv0]; exact hS) hg hc
      rw [hv0] at this
      exact this
    | succ v =>
      simp only [List.getElem?_cons_succ] at hv
      have := ih (uploadGroups v0 offset).2 (List.foldl Call.store m (uploadGroups v0 offset).1)
        v vert i g c a (fun w hw => h w (List.mem_cons_of_mem _ hw)) hv hg hc
      rw [h2] at this
      have e : offset + ((v + 1 : Nat) : Int) * ((4 * cs.sum : Nat) : Int)
            + ((4 * (cs.take i).sum : Nat) : Int) + 4 * (c : Int)
          = offset + ((4 * cs.sum : Nat) : Int) + (v : Int) * ((4 * cs.sum : Nat) : Int)
            + ((4 * (cs.take i).sum : Nat) : Int) + 4 * (c : Int) := by
        push_cast; ring
      rw [e, h2]; exact this

/-- Reading a group through a layout whose component count is the length of the
group returns the group, when every component is stored where the layout
looks for it. -/
theorem readAttrib_eq (m : Int → Option GLfloat) (stride pointer : Int) (v : Nat)
    (g : List GLfloat)
    (h : ∀ (c : Nat) (a : GLfloat), g[c]? = some a →
      m ((v : Int) * stride + pointer + 4 * (c : Int)) = some a) :
    readAttrib m (g.length : Int) stride pointer v = g.map some := by
  apply List.ext_getElem?
  intro n
  simp only [readAttrib, Int.toNat_ofNat, List.getElem?_map]
  by_cases hn : n < g.length
  · have hg : g[n]? = some g[n] := List.getElem?_eq_getElem hn
    rw [List.getElem?_range hn, hg]
    simp only [Option.map_some']
    rw [h n g[n] hg]
  · have hg : g[n]? = none := List.getElem?_eq_none (by omega)
    have hr : (List.range g.length)[n]? = none :=
      List.getElem?_eq_none (by simp only [List.length_range]; omega)
    rw [hr, hg]; rfl

/-- C10. For a `VertexArray` constructed from `N ≥ 1` vertices of one shape
`cs`, all sizes within the 32-bit types of the source: the `glBufferSubData`
writes cover every byte of `[0, N * 4 * sum cs)`, the size given to
`glBufferData`, exactly once and no byte outside; and for every vertex `v` and
group `i` the layout declared for location `i` reads `vertices[v][i]` from the
uploaded store, component `c` at byte `v * stride + pointer + 4 * c`. -/
theorem VertexArray.new_interleaved (vertices : List (List (List GLfloat)))
    (id buffer : Nat) (cs : List Nat) (hne : vertices ≠ [])
    (hshape : ∀ v ∈ vertices, v.map List.length = cs)
    (hN : vertices.length < 2147483648) (hK : cs.length < 2147483648)
    (hbytes : vertices.length * (4 * cs.sum) < 2147483648) :
    ∃ calls vao, VertexArray.new vertices id buffer = some (calls, vao) ∧
      Call.glBufferData GL_ARRAY_BUFFER ((vertices.length * (4 * cs.sum) : Nat) : Int)
        none GL_STATIC_DRAW ∈ calls ∧
      (∀ x : Int, coverCount (subDataWrites calls) x =
        if 0 ≤ x ∧ x < ((vertices.length * (4 * cs.sum) : Nat) : Int) then 1 else 0) ∧
      (∀ (v : Nat) (vert : List (List GLfloat)) (i : Nat) (g : List GLfloat),
        vertices[v]? = some vert → vert[i]? = some g →
        ∃ size stride pointer,
          (declaredLayout calls)[i]? = some (i, size, stride, pointer) ∧
          readAttrib (bufferStore calls) size stride pointer v = g.map some) := by
  obtain ⟨calls, vao, hnew, hdata, hstore, hwrites, hlay⟩ :=
    VertexArray.new_declaredLayout vertices id buffer cs hne hshape hN hK hbytes
  have hpos : 0 < vertices.length := List.length_pos.mpr hne
  have hS : 4 * cs.sum < 2147483648 := by
    calc 4 * cs.sum = 1 * (4 * cs.sum) := (Nat.one_mul _).symm
      _ ≤ vertices.length * (4 * cs.sum) := Nat.mul_le_mul_right _ hpos
      _ < 2147483648 := hbytes
  refine ⟨calls, vao, hnew, hdata, ?_, ?_⟩
  · intro x
    rw [hwrites, uploadVertices_cover cs hS vertices 0 x hshape]
    simp only [zero_add]
  · intro v vert i g hv hg
    have hvm : vert ∈ vertices := List.mem_iff_getElem?.mpr ⟨v, hv⟩
    have hci : cs[i]? = some g.length := by
      rw [← hshape vert hvm, List.getElem?_map, hg]; rfl
    refine ⟨(g.length : Int), ((4 * cs.sum : Nat) : Int), ((4 * (cs.take i).sum : Nat) : Int),
      ?_, ?_⟩
    · rw [hlay, layoutFrom_getElem _ cs 0 0 i g.length hci]
      simp
    · apply readAttrib_eq
      intro c a hc
      have := uploadVertices_read cs hS vertices 0 (fun _ => none) v vert i g c a hshape hv hg hc
      simp only [zero_add] at this
      simp only [bufferStore, hstore]
      exact this

/-- C10 at the input of `main`: the triangle, three vertices of shape `[4, 4]`. -/
theorem VertexArray.new_interleaved_witness :
    triangleVertices ≠ [] ∧
    (∀ v ∈ triangleVertices, v.map List.length = [4, 4]) ∧
    triangleVertices.length * (4 * [4, 4].sum) < 2147483648 ∧
    ∃ calls vao, VertexArray.new triangleVertices 1 1 = some (calls, vao) ∧
      Call.glBufferData GL_ARRAY_BUFFER ((triangleVertices.length * (4 * [4, 4].sum) : Nat) : Int)
        none GL_STATIC_DRAW ∈ calls ∧
      (∀ x : Int, coverCount (subDataWrites calls) x =
        if 0 ≤ x ∧ x < ((triangleVertices.length * (4 * [4, 4].sum) : Nat) : Int)
          then 1 else 0) ∧
      (∀ (v : Nat) (vert : List (List GLfloat)) (i : Nat) (g : List GLfloat),
        triangleVertices[v]? = some vert → vert[i]? = some g →
        ∃ size stride pointer,
          (declaredLayout calls)[i]? = some (i, size, stride, pointer) ∧
          readAttrib (bufferStore calls) size stride pointer v = g.map some) :=
  ⟨by decide, by decide, by decide,
    VertexArray.new_interleaved triangleVertices 1 1 [4, 4] (by decide) (by decide)
      (by decide) (by decide) (by decide)⟩

/-- C3 at the input of `main`: the quad, six vertices of shape `[2, 2]`. -/
theorem VertexArray.new_stride_and_offsets_witness :
    quadVertices ≠ [] ∧
    (∀ v ∈ quadVertices, v.map List.length = [2, 2]) ∧
    quadVertices.length * (4 * [2, 2].sum) < 2147483648 ∧
    ∃ calls vao, VertexArray.new quadVertices 2 2 = some (calls, vao) ∧
      Call.glBufferData GL_ARRAY_BUFFER ((quadVertices.length * (4 * [2, 2].sum) : Nat) : Int)
        none GL_STATIC_DRAW ∈ calls ∧
      (declaredLayout calls).length = [2, 2].length ∧
      ∀ (i c : Nat), [2, 2][i]? = some c →
        (declaredLayout calls)[i]? =
          some (i, (c : Int), ((4 * [2, 2].sum : Nat) : Int),
            ((4 * ([2, 2].take i).sum : Nat) : Int)) :=
  ⟨by decide, by decide, by decide,
    VertexArray.new_stride_and_offsets quadVertices 2 2 [2, 2] (by decide) (by decide)
      (by decide) (by decide) (by decide)⟩

end Triangle
